import Mathlib

/-
Verification development for the Polymarket pair-measurement bot.

Shallow embedding of the core trigger-evaluation engine
(src/trigger_evaluator.py), its price arithmetic (src/price_utils.py),
its data model (src/models.py) and the market monitor's cycle scheduler
(src/market_monitor.py), together with theorems settling the behavioural
claims about them.

Conventions of the embedding:
  * Python integers are Lean `Int`; Python `None`-able ints are `Option Int`.
  * Python floats are modelled as exact rationals `ℚ` (the source only
    ever divides small integer point values by 2 or by the tick size, so
    binary floating point is exact there).
  * `datetime` values are modelled as integer timestamps; subtraction of
    two datetimes followed by `.total_seconds()` becomes integer
    subtraction cast to `ℚ`.
  * Python dicts (insertion ordered) are association lists with
    update-in-place / append semantics, see `dictSet` below.
  * The per-attempt rolling trackers are keyed by `id(attempt)` in the
    source; attempts are identified here by their `attempt_id` (the
    evaluator-local monotone counter), exactly the replacement the
    repository documentation itself prescribes for the object-identity
    trick.
  * The only exception the evaluator can raise is the `ValueError` of
    `round_to_tick` for a non-positive tick (price_utils.py line 34),
    which is reached exactly when the snapshot passes orderbook
    validation; `evaluate_cycle` is therefore embedded as an `Except`
    returning function whose error case is that single raise site.

Several record declarations referenced by the evaluator, the database
layer and the entry point (the `PendingLimit` record, the period-low
snapshot fields, the stop-loss and maker-buffer parameters, the
limit-order tracking fields of `Attempt`) are missing from the copy of
models.py in src/ — only their callers are present.  Those fields are
modelled from the spec and from their construction sites, and are marked
as such below.
-/

namespace PairBot

/-! ## Price arithmetic (src/price_utils.py) -/

/-- Python truncation `int(x)` for a rational: rounds toward zero. -/
def pyTrunc (q : ℚ) : Int :=
  if 0 ≤ q then ⌊q⌋ else -⌊-q⌋

/-- round_to_tick (price_utils.py) for an integer raw value: floor
`raw / tick` and re-multiply.  `Int.fdiv` is floor division, matching
`math.floor(raw / tick)` for `tick > 0`; the raising behaviour for
`tick ≤ 0` is modelled at the `evaluate_cycle` wrapper. -/
def round_to_tick_int (raw tick : Int) : Int :=
  Int.fdiv raw tick * tick

/-- round_to_tick (price_utils.py) applied to a half-integer raw value
`rawH / 2` (the midpoints are the only fractional inputs in the
evaluator).  For `tick > 0`,
`floor((rawH / 2) / tick) = fdiv rawH (2 * tick)`, so the doubled
representation stays exactly equal to the source's float arithmetic. -/
def round_to_tick_half (rawH tick : Int) : Int :=
  Int.fdiv rawH (2 * tick) * tick

/-- clamp_trigger (price_utils.py): clamp into `[tick, 99]`. -/
def clamp_trigger (trigger tick : Int) : Int :=
  max tick (min trigger 99)

/-- midpoint_points (price_utils.py) in half-points: the source
computes `(bid + ask) / 2` as a float; the embedding carries the exact
doubled value `bid + ask` so that all evaluator arithmetic stays in
`Int`. -/
def midpoint_half_points (bid ask : Int) : Int :=
  bid + ask

/-- Python `int(·)` applied to a half-integer value `h / 2`: truncation
toward zero, i.e. `Int.tdiv h 2`. -/
def trunc_half (h : Int) : Int :=
  Int.tdiv h 2

/-! ## Python-truthiness helpers -/

/-- Python `a or b` for two optional ints: `a` counts only when it is
present and non-zero. -/
def pyOrOpt (a b : Option Int) : Option Int :=
  match a with
  | some x => if x = 0 then b else some x
  | none => b

/-- Python `a or 0` for an optional int. -/
def pyOrZero (a : Option Int) : Int :=
  match a with
  | some x => x
  | none => 0

/-! ## Ordered-dict and association-list helpers -/

/-- Lookup in an insertion-ordered association list. -/
def dictGet {κ : Type} {α : Type} [BEq κ] (d : List (κ × α)) (k : κ) : Option α :=
  (d.find? (fun p => p.1 == k)).map Prod.snd

/-- Python dict assignment: replace in place when the key exists
(preserving its position), otherwise append at the end. -/
def dictSet {κ : Type} {α : Type} [BEq κ] (d : List (κ × α)) (k : κ) (v : α) :
    List (κ × α) :=
  if (d.find? (fun p => p.1 == k)).isSome then
    d.map (fun p => if p.1 == k then (k, v) else p)
  else
    d ++ [(k, v)]

/-- Python `dict.pop(k, None)`: drop the key if present. -/
def dictPop {κ : Type} {α : Type} [BEq κ] (d : List (κ × α)) (k : κ) :
    List (κ × α) :=
  d.filter (fun p => !(p.1 == k))

/-! ## Enums (src/models.py) -/

/-- Side of the binary market. -/
inductive Side where
  | YES
  | NO
deriving DecidableEq, Repr

/-- Side.opposite (models.py). -/
def Side.opposite : Side → Side
  | Side.YES => Side.NO
  | Side.NO => Side.YES

instance : BEq Side := ⟨fun a b => decide (a = b)⟩

/-- Lifecycle status of an attempt. -/
inductive AttemptStatus where
  | ACTIVE
  | COMPLETED_PAIRED
  | COMPLETED_FAILED
deriving DecidableEq, Repr

/-- Sampling mode of the cycle scheduler. -/
inductive SamplingMode where
  | FIXED_INTERVAL
  | FIXED_COUNT
deriving DecidableEq, Repr

/-- Trigger rule enumeration (single member). -/
inductive TriggerRule where
  | ASK_TOUCH
deriving DecidableEq, Repr

/-- Reference price source enumeration. -/
inductive ReferencePriceSource where
  | MIDPOINT
  | LAST_TRADE
deriving DecidableEq, Repr

/-! ## Core records (src/models.py, with the fields missing from src/
modelled from the spec) -/

/-- A set of measurement parameters (models.py `ParameterSet`).
`stop_loss_threshold_points` is modelled from the spec: the copy of
models.py in src/ lacks it although main.py passes it to the
constructor, config.py validates it and the database schema stores it.
`maker_buffer_points` is likewise missing from src/ and is determined by
its only use, `evaluate_cycle`'s limit-price formula. -/
structure ParameterSet where
  name : String
  S0_points : Int
  delta_points : Int
  trigger_rule : TriggerRule
  reference_price_source : ReferencePriceSource
  stop_loss_threshold_points : Option Int
  maker_buffer_points : Int
  parameter_set_id : Option Int
deriving DecidableEq, Repr

/-- pair_cap_points: `PairCap = 100 − δ`. -/
def ParameterSet.pair_cap_points (ps : ParameterSet) : Int :=
  100 - ps.delta_points

/-- Metadata of a discovered market (models.py `MarketInfo`). -/
structure MarketInfo where
  market_slug : String
  condition_id : String
  crypto_asset : String
  yes_token_id : String
  no_token_id : String
  settlement_time : Int
  tick_size_points : Int
  active : Bool
  accepting_orders : Bool
deriving DecidableEq, Repr

/-- Orderbook snapshot captured at a measurement cycle (models.py
`Snapshot`).  The four period-low fields are modelled from the spec
(section 3: "optional YES/NO period-low ask and bid"): the evaluator and
the database read them but the copy of models.py in src/ lacks them. -/
structure Snapshot where
  market_id : String
  cycle_number : Int
  timestamp : Int
  yes_bid_points : Option Int
  yes_ask_points : Option Int
  no_bid_points : Option Int
  no_ask_points : Option Int
  yes_period_low_ask_points : Option Int := none
  no_period_low_ask_points : Option Int := none
  yes_period_low_bid_points : Option Int := none
  no_period_low_bid_points : Option Int := none
  yes_last_trade_points : Option Int := none
  no_last_trade_points : Option Int := none
  time_remaining_seconds : ℚ := 0
  active_attempts_count : Int := 0
  anomaly_flag : Bool := false
deriving DecidableEq, Repr

/-- A single measurement attempt (models.py `Attempt`).
The stop-loss fields and the limit-order tracking block are modelled
from the spec and the database schema; the copy of models.py in src/
lacks them although `_create_attempt_from_pending` and the attempt
insert statement populate them. -/
structure Attempt where
  attempt_id : Int
  market_id : String
  parameter_set_id : Int
  cycle_number : Int
  t1_timestamp : Int
  first_leg_side : Side
  P1_points : Int
  reference_yes_points : Int
  reference_no_points : Int
  opposite_side : Side
  opposite_trigger_points : Int
  opposite_max_points : Int
  status : AttemptStatus := AttemptStatus.ACTIVE
  t2_timestamp : Option Int := none
  t2_cycle_number : Option Int := none
  time_to_pair_seconds : Option ℚ := none
  time_remaining_at_start : ℚ := 0
  time_remaining_at_completion : Option ℚ := none
  actual_opposite_price : Option Int := none
  pair_cost_points : Option Int := none
  pair_profit_points : Option Int := none
  fail_reason : Option String := none
  had_feed_gap : Bool := false
  closest_approach_points : Option Int := none
  closest_approach_timestamp : Option Int := none
  closest_approach_cycle_number : Option Int := none
  max_adverse_excursion_points : Option Int := none
  mae_timestamp : Option Int := none
  mae_cycle_number : Option Int := none
  time_remaining_bucket : Option String := none
  yes_spread_entry_points : Option Int := none
  no_spread_entry_points : Option Int := none
  yes_spread_exit_points : Option Int := none
  no_spread_exit_points : Option Int := none
  delta_points : Option Int := none
  S0_points : Option Int := none
  stop_loss_threshold_points : Option Int := none
  stop_loss_price_points : Option Int := none
  limit_placed_timestamp : Option Int := none
  limit_placed_cycle : Option Int := none
  cycles_to_fill_first_leg : Option Int := none
  ask_at_placement_points : Option Int := none
  placement_buffer_points : Option Int := none
deriving DecidableEq, Repr

/-- A posted (simulated) first-leg maker limit order.
Modelled from the spec: the `PendingLimit` record is imported by
trigger_evaluator.py from models.py but is missing from the copy of
models.py in src/; its fields are exactly those populated at the single
construction site (trigger_evaluator.py lines 234—242). -/
structure PendingLimit where
  side : Side
  limit_price_points : Int
  ask_at_placement_points : Int
  reference_yes_points : Int
  reference_no_points : Int
  placed_cycle : Int
  placed_timestamp : Int
deriving DecidableEq, Repr

/-- Per-cycle tracking row for an active attempt (models.py
`LifecycleRecord`). -/
structure LifecycleRecord where
  attempt_id : Int
  cycle_number : Int
  timestamp : Int
  opposite_ask_points : Option Int
  distance_to_trigger : Option Int
  closest_approach_so_far : Option Int
deriving DecidableEq, Repr

/-- Everything that happened during one measurement cycle
(trigger_evaluator.py `CycleResult`). -/
structure CycleResult where
  new_attempts : List Attempt := []
  paired_attempts : List Attempt := []
  active_count : Nat := 0
  pending_limit_count : Nat := 0
  skipped : Bool := false
  skip_reason : String := ""
  anomaly : Bool := false
  anomaly_detail : String := ""
  lifecycle_records : List LifecycleRecord := []
deriving DecidableEq, Repr

/-- The stateful trigger-evaluation engine (trigger_evaluator.py
`TriggerEvaluator`): bound parameters plus pending limits, active
attempts, per-attempt rolling trackers (keyed by attempt id) and running
counters. -/
structure TriggerEvaluator where
  params : ParameterSet
  market_info : MarketInfo
  max_ref_sum_deviation : Int
  enable_lifecycle : Bool
  tick : Int
  pending_limits : List (Side × PendingLimit)
  active_attempts : List Attempt
  attempt_counter : Int
  closest_approach : List (Int × Int)
  closest_approach_ts : List (Int × Int)
  closest_approach_cn : List (Int × Int)
  mae : List (Int × Int)
  mae_ts : List (Int × Int)
  mae_cn : List (Int × Int)
  total_attempts : Nat
  total_pairs : Nat
  total_failed : Nat
  max_concurrent : Nat
deriving DecidableEq, Repr

/-- TriggerEvaluator.__init__ (trigger_evaluator.py lines 73—105). -/
def mkTriggerEvaluator (params : ParameterSet) (market_info : MarketInfo)
    (max_ref_sum_deviation : Int) (enable_lifecycle : Bool) :
    TriggerEvaluator :=
  { params := params
    market_info := market_info
    max_ref_sum_deviation := max_ref_sum_deviation
    enable_lifecycle := enable_lifecycle
    tick := market_info.tick_size_points
    pending_limits := []
    active_attempts := []
    attempt_counter := 0
    closest_approach := []
    closest_approach_ts := []
    closest_approach_cn := []
    mae := []
    mae_ts := []
    mae_cn := []
    total_attempts := 0
    total_pairs := 0
    total_failed := 0
    max_concurrent := 0 }

/-! ## Orderbook validation (trigger_evaluator.py `_has_valid_orderbook`) -/

/-- True if both sides have meaningful bid and ask data: all four fields
present and positive, and bid strictly below ask on each side. -/
def has_valid_orderbook (s : Snapshot) : Bool :=
  match s.yes_bid_points, s.yes_ask_points, s.no_bid_points, s.no_ask_points with
  | some yb, some ya, some nb, some na =>
      if yb ≤ 0 ∨ ya ≤ 0 ∨ nb ≤ 0 ∨ na ≤ 0 then false
      else if ya ≤ yb then false
      else if na ≤ nb then false
      else true
  | _, _, _, _ => false

/-! ## Small helpers shared by the cycle steps -/

/-- Python `low_ask is not None and low_ask <= limit`. -/
def fillHit (low : Option Int) (limit : Int) : Bool :=
  match low with
  | some la => decide (la ≤ limit)
  | none => false

/-- Period-low ask of the given side with fallback to the current ask
(the `or` is Python truthiness: a stored zero also falls back). -/
def opp_low_ask (s : Snapshot) (side : Side) : Option Int :=
  if side == Side.YES then pyOrOpt s.yes_period_low_ask_points s.yes_ask_points
  else pyOrOpt s.no_period_low_ask_points s.no_ask_points

/-- Per-side selection of the (already computed) period-low ask. -/
def side_low (yes_low no_low : Option Int) (side : Side) : Option Int :=
  if side == Side.YES then yes_low else no_low

/-- Current bid of the given side (used by the MAE tracker). -/
def side_bid (s : Snapshot) (side : Side) : Option Int :=
  if side == Side.YES then s.yes_bid_points else s.no_bid_points

/-- Time-remaining bucket label (Feature 3). -/
def time_bucket (time_remaining : ℚ) : String :=
  if 600 < time_remaining then "600s+"
  else if 300 < time_remaining then "300-600s"
  else if 120 < time_remaining then "120-300s"
  else "0-120s"

/-- Remove all six per-attempt tracker entries for a key. -/
def drop_trackers (ev : TriggerEvaluator) (key : Int) : TriggerEvaluator :=
  { ev with
    closest_approach := dictPop ev.closest_approach key
    closest_approach_ts := dictPop ev.closest_approach_ts key
    closest_approach_cn := dictPop ev.closest_approach_cn key
    mae := dictPop ev.mae key
    mae_ts := dictPop ev.mae_ts key
    mae_cn := dictPop ev.mae_cn key }

/-! ## Attempt construction (trigger_evaluator.py
`_create_attempt_from_pending`) -/

/-- Build a new Attempt from a filled PendingLimit.  `P1` is the pending
limit price; the opposite trigger is the stricter of the
reference-derived trigger and the pair-constraint ceiling
`PairCap − P1` (floored to tick, bumped up to one tick when the pair
constraint is impossible). -/
def create_attempt_from_pending (ev : TriggerEvaluator) (pending : PendingLimit)
    (ref_yes ref_no : Int) (cycle_number cycle_time : Int)
    (time_remaining : ℚ) (s : Snapshot) (cycles_to_fill : Int) :
    TriggerEvaluator × Attempt :=
  let counter := ev.attempt_counter + 1
  let ev' := { ev with attempt_counter := counter, total_attempts := ev.total_attempts + 1 }
  let first_leg_side := pending.side
  let P1 := pending.limit_price_points
  let opposite_side := first_leg_side.opposite
  let opp_ref := if opposite_side == Side.YES then ref_yes else ref_no
  let opp_trigger_from_ref :=
    clamp_trigger (round_to_tick_int (opp_ref - ev.params.S0_points) ev.tick) ev.tick
  let opp_max0 := round_to_tick_int (ev.params.pair_cap_points - P1) ev.tick
  -- Edge-case guard: opp_max > 100 is only logged; opp_max < tick is bumped.
  let opp_max := if opp_max0 < ev.tick then ev.tick else opp_max0
  let opp_trigger := min opp_trigger_from_ref opp_max
  let yes_spread_entry : Option Int :=
    match s.yes_ask_points, s.yes_bid_points with
    | some a, some b => some (a - b)
    | _, _ => none
  let no_spread_entry : Option Int :=
    match s.no_ask_points, s.no_bid_points with
    | some a, some b => some (a - b)
    | _, _ => none
  let placement_buffer := pending.ask_at_placement_points - P1
  (ev',
   { attempt_id := counter
     market_id := ev.market_info.market_slug
     parameter_set_id := pyOrZero ev.params.parameter_set_id
     cycle_number := cycle_number
     t1_timestamp := cycle_time
     first_leg_side := first_leg_side
     P1_points := P1
     reference_yes_points := ref_yes
     reference_no_points := ref_no
     opposite_side := opposite_side
     opposite_trigger_points := opp_trigger
     opposite_max_points := opp_max
     time_remaining_at_start := time_remaining
     time_remaining_bucket := some (time_bucket time_remaining)
     yes_spread_entry_points := yes_spread_entry
     no_spread_entry_points := no_spread_entry
     delta_points := some ev.params.delta_points
     S0_points := some ev.params.S0_points
     limit_placed_timestamp := some pending.placed_timestamp
     limit_placed_cycle := some pending.placed_cycle
     cycles_to_fill_first_leg := some cycles_to_fill
     ask_at_placement_points := some pending.ask_at_placement_points
     placement_buffer_points := some placement_buffer })

/-! ## Cycle step 3: delayed fills of carried-over pending limits -/

/-- Scan the (snapshot of the) pending-limit dict: a pending limit
placed in an earlier cycle whose side's period-low ask came down to the
limit fills with `cycles_to_fill = cycle_number − placed_cycle`. -/
def check_pending_fills (s : Snapshot) (yes_low no_low : Option Int)
    (ref_yes ref_no cycle_number cycle_time : Int) (time_remaining : ℚ) :
    List (Side × PendingLimit) → TriggerEvaluator →
    TriggerEvaluator × List Attempt × List Side
  | [], ev => (ev, [], [])
  | (side, pending) :: rest, ev =>
    let low_ask := side_low yes_low no_low side
    if fillHit low_ask pending.limit_price_points then
      if 1 ≤ cycle_number - pending.placed_cycle then
        let created := create_attempt_from_pending ev pending ref_yes ref_no
          cycle_number cycle_time time_remaining s (cycle_number - pending.placed_cycle)
        let restOut := check_pending_fills s yes_low no_low ref_yes ref_no
          cycle_number cycle_time time_remaining rest created.1
        (restOut.1, created.2 :: restOut.2.1, side :: restOut.2.2)
      else
        check_pending_fills s yes_low no_low ref_yes ref_no
          cycle_number cycle_time time_remaining rest ev
    else
      check_pending_fills s yes_low no_low ref_yes ref_no
        cycle_number cycle_time time_remaining rest ev

/-! ## Cycle step 4: refresh the pending limits from current prices -/

/-- The maker limit price of one side:
`min(reference − S0, current_ask − maker_buffer)` floored to the tick
and clamped into `[tick, 99]`.  `refH` is the reference midpoint in
half-points. -/
def limit_price_from (refH current_ask S0 buffer tick : Int) : Int :=
  clamp_trigger
    (min (round_to_tick_half (refH - 2 * S0) tick)
         (round_to_tick_int (current_ask - buffer) tick))
    tick

/-- Refresh one side's pending limit: limit price is
`min(reference − S0, current_ask − maker_buffer)` floored to tick and
clamped; a limit at or above PairCap is suppressed (and any stale
pending removed). -/
def refresh_pending_for_side (s : Snapshot) (yes_refH no_refH : Int)
    (ref_yes ref_no cycle_number cycle_time : Int) (filled_sides : List Side)
    (ev : TriggerEvaluator) (side : Side) : TriggerEvaluator :=
  if filled_sides.contains side then ev
  else
    -- post-validation the current ask is always present
    let current_ask := pyOrZero (if side == Side.YES then s.yes_ask_points else s.no_ask_points)
    let refH := if side == Side.YES then yes_refH else no_refH
    let limit_price := limit_price_from refH current_ask
      ev.params.S0_points ev.params.maker_buffer_points ev.tick
    let posted : PendingLimit :=
      { side := side
        limit_price_points := limit_price
        ask_at_placement_points := current_ask
        reference_yes_points := ref_yes
        reference_no_points := ref_no
        placed_cycle := cycle_number
        placed_timestamp := cycle_time }
    if ev.params.pair_cap_points ≤ limit_price then
      { ev with pending_limits := dictPop ev.pending_limits side }
    else
      { ev with pending_limits := dictSet ev.pending_limits side posted }

/-! ## Cycle step 5: same-cycle fills of just-placed limits -/

/-- Scan the refreshed pending-limit dict: a limit already visited by
the period-low ask fills immediately with `cycles_to_fill = 0`. -/
def same_cycle_fill_scan (s : Snapshot) (yes_low no_low : Option Int)
    (ref_yes ref_no cycle_number cycle_time : Int) (time_remaining : ℚ) :
    List (Side × PendingLimit) → TriggerEvaluator →
    TriggerEvaluator × List Attempt × List Side
  | [], ev => (ev, [], [])
  | (side, pending) :: rest, ev =>
    let low_ask := side_low yes_low no_low side
    if fillHit low_ask pending.limit_price_points then
      let created := create_attempt_from_pending ev pending ref_yes ref_no
        cycle_number cycle_time time_remaining s 0
      let restOut := same_cycle_fill_scan s yes_low no_low ref_yes ref_no
        cycle_number cycle_time time_remaining rest created.1
      (restOut.1, created.2 :: restOut.2.1, side :: restOut.2.2)
    else
      same_cycle_fill_scan s yes_low no_low ref_yes ref_no
        cycle_number cycle_time time_remaining rest ev

/-! ## Simultaneous-fill tie-break -/

/-- Distance below the limit at fill time (`P1 − low_ask` when the low
ask is present and non-zero, else 0 by Python truthiness). -/
def fill_dist (yes_low no_low : Option Int) (a : Attempt) : Int :=
  let ask := if a.first_leg_side == Side.YES then yes_low else no_low
  match ask with
  | some x => if x = 0 then 0 else a.P1_points - x
  | none => 0

/-- When exactly two attempts fired this cycle, put the one that
touched harder (larger distance below its limit) first; otherwise keep
the list as built. -/
def reorder_simultaneous (yes_low no_low : Option Int) :
    List Attempt → List Attempt
  | [a0, a1] =>
    if fill_dist yes_low no_low a0 < fill_dist yes_low no_low a1 then [a1, a0]
    else [a0, a1]
  | l => l

/-! ## Cycle step 6: pairing sweep -/

/-- Mark an attempt paired: the fill price is modelled as the limit
price itself (`opposite_trigger_points`); cost, profit, closest
approach and exit spreads are finalized, and MAE is taken from the
rolling tracker. -/
def pair_mark (ev : TriggerEvaluator) (a : Attempt) (s : Snapshot)
    (cycle_number cycle_time : Int) (time_remaining : ℚ) : Attempt :=
  let limit_fill_price := a.opposite_trigger_points
  let key := a.attempt_id
  let base :=
    { a with
      status := AttemptStatus.COMPLETED_PAIRED
      t2_timestamp := some cycle_time
      t2_cycle_number := some cycle_number
      time_to_pair_seconds := some ((cycle_time - a.t1_timestamp : Int) : ℚ)
      actual_opposite_price := some limit_fill_price
      pair_cost_points := some (a.P1_points + limit_fill_price)
      pair_profit_points := some (100 - (a.P1_points + limit_fill_price))
      time_remaining_at_completion := some time_remaining
      closest_approach_points := some 0
      closest_approach_timestamp := some cycle_time
      closest_approach_cycle_number := some cycle_number }
  let base2 :=
    match dictGet ev.mae key with
    | some m =>
      { base with max_adverse_excursion_points := some m
                  mae_timestamp := dictGet ev.mae_ts key
                  mae_cycle_number := dictGet ev.mae_cn key }
    | none => { base with max_adverse_excursion_points := some 0 }
  let base3 :=
    match s.yes_ask_points, s.yes_bid_points with
    | some ya, some yb => { base2 with yes_spread_exit_points := some (ya - yb) }
    | _, _ => base2
  match s.no_ask_points, s.no_bid_points with
  | some na, some nb => { base3 with no_spread_exit_points := some (na - nb) }
  | _, _ => base3

/-- Sweep the active attempts: an attempt whose opposite period-low ask
reached its opposite trigger pairs; the rest stay active. -/
def pairing_sweep (s : Snapshot) (cycle_number cycle_time : Int)
    (time_remaining : ℚ) :
    List Attempt → TriggerEvaluator →
    TriggerEvaluator × List Attempt × List Attempt
  | [], ev => (ev, [], [])
  | a :: rest, ev =>
    let opp_ask := opp_low_ask s a.opposite_side
    if fillHit opp_ask a.opposite_trigger_points then
      let a' := pair_mark ev a s cycle_number cycle_time time_remaining
      let ev1 := drop_trackers { ev with total_pairs := ev.total_pairs + 1 } a.attempt_id
      let restOut := pairing_sweep s cycle_number cycle_time time_remaining rest ev1
      (restOut.1, a' :: restOut.2.1, restOut.2.2)
    else
      let restOut := pairing_sweep s cycle_number cycle_time time_remaining rest ev
      (restOut.1, restOut.2.1, a :: restOut.2.2)

/-! ## Cycle step 8: closest-approach and MAE tracking -/

/-- Update the rolling trackers for one still-active attempt.  The
closest-approach block indexes the tracker dict directly after the
conditional insert, so when the distance is at least the 9999 default
and the key was never inserted the source raises `KeyError`; that raise
is the error case here. -/
def track_one (ev : TriggerEvaluator) (a : Attempt) (s : Snapshot)
    (cycle_number cycle_time : Int) :
    Except String (TriggerEvaluator × Attempt) :=
  let key := a.attempt_id
  let opp_ask := opp_low_ask s a.opposite_side
  let step1 : Except String (TriggerEvaluator × Attempt) :=
    match opp_ask with
    | some oa =>
      if 0 < oa then
        let dist := oa - a.opposite_trigger_points
        let prev := (dictGet ev.closest_approach key).getD 9999
        let ev1 :=
          if dist < prev then
            { ev with closest_approach := dictSet ev.closest_approach key dist
                      closest_approach_ts := dictSet ev.closest_approach_ts key cycle_time
                      closest_approach_cn := dictSet ev.closest_approach_cn key cycle_number }
          else ev
        match dictGet ev1.closest_approach key with
        | some v =>
          .ok (ev1,
            { a with closest_approach_points := some v
                     closest_approach_timestamp := dictGet ev1.closest_approach_ts key
                     closest_approach_cycle_number := dictGet ev1.closest_approach_cn key })
        | none => .error "KeyError: closest_approach"
      else .ok (ev, a)
    | none => .ok (ev, a)
  match step1 with
  | .error e => .error e
  | .ok (ev2, a2) =>
    let first_leg_bid := side_bid s a.first_leg_side
    match first_leg_bid with
    | some b =>
      if 0 < b then
        let adverse := max 0 (a.P1_points - b)
        let prev_mae := (dictGet ev2.mae key).getD 0
        let ev3 :=
          if prev_mae < adverse then
            { ev2 with mae := dictSet ev2.mae key adverse
                       mae_ts := dictSet ev2.mae_ts key cycle_time
                       mae_cn := dictSet ev2.mae_cn key cycle_number }
          else ev2
        .ok (ev3,
          { a2 with max_adverse_excursion_points := some ((dictGet ev3.mae key).getD 0)
                    mae_timestamp := dictGet ev3.mae_ts key
                    mae_cycle_number := dictGet ev3.mae_cn key })
      else .ok (ev2, a2)
    | none => .ok (ev2, a2)

/-- Run the tracker update over every still-active attempt in order. -/
def track_all (s : Snapshot) (cycle_number cycle_time : Int) :
    List Attempt → TriggerEvaluator →
    Except String (TriggerEvaluator × List Attempt)
  | [], ev => .ok (ev, [])
  | a :: rest, ev =>
    match track_one ev a s cycle_number cycle_time with
    | .error e => .error e
    | .ok (ev1, a1) =>
      match track_all s cycle_number cycle_time rest ev1 with
      | .error e => .error e
      | .ok (ev2, rest1) => .ok (ev2, a1 :: rest1)

/-! ## Cycle step 9: lifecycle records -/

/-- One lifecycle row for a pre-existing active attempt; the distance
uses the current (not period-low) opposite ask. -/
def lifecycle_record_for (ev : TriggerEvaluator) (s : Snapshot)
    (cycle_number cycle_time : Int) (a : Attempt) : LifecycleRecord :=
  let opp_ask := if a.opposite_side == Side.YES then s.yes_ask_points else s.no_ask_points
  { attempt_id := a.attempt_id
    cycle_number := cycle_number
    timestamp := cycle_time
    opposite_ask_points := opp_ask
    distance_to_trigger := opp_ask.map (fun oa => oa - a.opposite_trigger_points)
    closest_approach_so_far := dictGet ev.closest_approach a.attempt_id }

/-- Lifecycle rows for all attempts that existed before this cycle,
when lifecycle tracking is enabled. -/
def lifecycle_rows (ev : TriggerEvaluator) (s : Snapshot)
    (cycle_number cycle_time : Int) (pre_existing_ids : List Int) :
    List LifecycleRecord :=
  if ev.enable_lifecycle then
    (ev.active_attempts.filter (fun a => pre_existing_ids.contains a.attempt_id)).map
      (lifecycle_record_for ev s cycle_number cycle_time)
  else []

/-! ## evaluate_cycle -/

/-- YES reference midpoint of a snapshot, in half-points. -/
def snap_yes_refH (s : Snapshot) : Int :=
  midpoint_half_points (pyOrZero s.yes_bid_points) (pyOrZero s.yes_ask_points)

/-- NO reference midpoint of a snapshot, in half-points. -/
def snap_no_refH (s : Snapshot) : Int :=
  midpoint_half_points (pyOrZero s.no_bid_points) (pyOrZero s.no_ask_points)

/-- `int(yes_ref)` of a snapshot. -/
def snap_ref_yes_int (s : Snapshot) : Int := trunc_half (snap_yes_refH s)

/-- `int(no_ref)` of a snapshot. -/
def snap_ref_no_int (s : Snapshot) : Int := trunc_half (snap_no_refH s)

/-- YES period-low ask with fallback to the current ask. -/
def snap_yes_low (s : Snapshot) : Option Int :=
  pyOrOpt s.yes_period_low_ask_points s.yes_ask_points

/-- NO period-low ask with fallback to the current ask. -/
def snap_no_low (s : Snapshot) : Option Int :=
  pyOrOpt s.no_period_low_ask_points s.no_ask_points

/-- Step 3 of `evaluate_cycle`: delayed fills against the pending-limit
dict as carried over from earlier cycles. -/
def cycle_step3 (ev : TriggerEvaluator) (s : Snapshot) (n t : Int) (tr : ℚ) :
    TriggerEvaluator × List Attempt × List Side :=
  check_pending_fills s (snap_yes_low s) (snap_no_low s)
    (snap_ref_yes_int s) (snap_ref_no_int s) n t tr ev.pending_limits ev

/-- State after step 3's filled limits are popped from the dict. -/
def cycle_after3 (ev : TriggerEvaluator) (s : Snapshot) (n t : Int) (tr : ℚ) :
    TriggerEvaluator :=
  let st := cycle_step3 ev s n t tr
  let pend := st.2.2.foldl (fun d sd => dictPop d sd) st.1.pending_limits
  { st.1 with pending_limits := pend }

/-- State after step 4: both sides' pending limits refreshed from
current prices (sides just filled are skipped). -/
def cycle_after4 (ev : TriggerEvaluator) (s : Snapshot) (n t : Int) (tr : ℚ) :
    TriggerEvaluator :=
  [Side.YES, Side.NO].foldl
    (refresh_pending_for_side s (snap_yes_refH s) (snap_no_refH s)
      (snap_ref_yes_int s) (snap_ref_no_int s) n t (cycle_step3 ev s n t tr).2.2)
    (cycle_after3 ev s n t tr)

/-- Step 5 of `evaluate_cycle`: same-cycle fills of the refreshed
limits. -/
def cycle_step5 (ev : TriggerEvaluator) (s : Snapshot) (n t : Int) (tr : ℚ) :
    TriggerEvaluator × List Attempt × List Side :=
  same_cycle_fill_scan s (snap_yes_low s) (snap_no_low s)
    (snap_ref_yes_int s) (snap_ref_no_int s) n t tr
    (cycle_after4 ev s n t tr).pending_limits (cycle_after4 ev s n t tr)

/-- State after step 5's filled limits are popped from the dict. -/
def cycle_after5 (ev : TriggerEvaluator) (s : Snapshot) (n t : Int) (tr : ℚ) :
    TriggerEvaluator :=
  let st := cycle_step5 ev s n t tr
  let pend := st.2.2.foldl (fun d sd => dictPop d sd) st.1.pending_limits
  { st.1 with pending_limits := pend }

/-- The new attempts of the cycle (steps 3 and 5 in order), after the
simultaneous-fill tie-break. -/
def cycle_new_attempts (ev : TriggerEvaluator) (s : Snapshot) (n t : Int) (tr : ℚ) :
    List Attempt :=
  reorder_simultaneous (snap_yes_low s) (snap_no_low s)
    ((cycle_step3 ev s n t tr).2.1 ++ (cycle_step5 ev s n t tr).2.1)

/-- State with the new attempts appended to the active list. -/
def cycle_before_pairing (ev : TriggerEvaluator) (s : Snapshot) (n t : Int) (tr : ℚ) :
    TriggerEvaluator :=
  let act := (cycle_after5 ev s n t tr).active_attempts ++ cycle_new_attempts ev s n t tr
  { cycle_after5 ev s n t tr with active_attempts := act }

/-- Step 6 of `evaluate_cycle`: the pairing sweep over all active
attempts. -/
def cycle_step6 (ev : TriggerEvaluator) (s : Snapshot) (n t : Int) (tr : ℚ) :
    TriggerEvaluator × List Attempt × List Attempt :=
  pairing_sweep s n t tr (cycle_before_pairing ev s n t tr).active_attempts
    (cycle_before_pairing ev s n t tr)

/-- Steps 2—7 of `evaluate_cycle` on a validated snapshot: reference
prices, delayed fills, limit refresh, same-cycle fills, tie-break,
pairing sweep and cleanup.  Returns the evaluator with the surviving
active attempts, the (reordered) new attempts and the paired
attempts. -/
def cycle_body (ev : TriggerEvaluator) (s : Snapshot)
    (cycle_number cycle_time : Int) (time_remaining : ℚ) :
    TriggerEvaluator × List Attempt × List Attempt :=
  let st := cycle_step6 ev s cycle_number cycle_time time_remaining
  ({ st.1 with active_attempts := st.2.2 },
   cycle_new_attempts ev s cycle_number cycle_time time_remaining,
   st.2.1)

/-- Body of `evaluate_cycle` past the raise point of `round_to_tick`:
validate, run the cycle body, run the trackers, emit lifecycle rows and
bookkeep.  The `Except` error case is the `KeyError` of the
closest-approach tracker (see `track_one`). -/
def evaluate_cycle_core (ev : TriggerEvaluator) (s : Snapshot)
    (cycle_number cycle_time : Int) (time_remaining : ℚ) :
    Except String (TriggerEvaluator × CycleResult) :=
  if ¬ (has_valid_orderbook s = true) then
    .ok (ev, { skipped := true
               skip_reason := "orderbook_empty"
               active_count := ev.active_attempts.length
               pending_limit_count := ev.pending_limits.length })
  else
    let yes_refH := midpoint_half_points (pyOrZero s.yes_bid_points) (pyOrZero s.yes_ask_points)
    let no_refH := midpoint_half_points (pyOrZero s.no_bid_points) (pyOrZero s.no_ask_points)
    -- |yes_ref + no_ref − 100| > dev in half-points
    let anomaly := decide (2 * ev.max_ref_sum_deviation < |yes_refH + no_refH - 200|)
    let pre_existing_ids := ev.active_attempts.map (fun a => a.attempt_id)
    let body := cycle_body ev s cycle_number cycle_time time_remaining
    let ev6b := body.1
    let new_attempts := body.2.1
    let paired := body.2.2
    -- Step 8: closest-approach and MAE tracking
    match track_all s cycle_number cycle_time ev6b.active_attempts ev6b with
    | .error e => .error e
    | .ok (ev7, tracked) =>
      let ev7b := { ev7 with active_attempts := tracked }
      let records := lifecycle_rows ev7b s cycle_number cycle_time pre_existing_ids
      let conc := max ev7b.max_concurrent ev7b.active_attempts.length
      let ev8 := { ev7b with max_concurrent := conc }
      .ok (ev8,
        { new_attempts := new_attempts
          paired_attempts := paired
          active_count := ev8.active_attempts.length
          pending_limit_count := ev8.pending_limits.length
          anomaly := anomaly
          anomaly_detail := if anomaly then "reference_sum_anomaly" else ""
          lifecycle_records := records })

/-- evaluate_cycle (trigger_evaluator.py lines 111—448).  A snapshot
that passes orderbook validation reaches `round_to_tick`, whose
`ValueError` for a non-positive tick is the first raise site; past it
the body is `evaluate_cycle_core`. -/
def evaluate_cycle (ev : TriggerEvaluator) (s : Snapshot)
    (cycle_number cycle_time : Int) (time_remaining : ℚ) :
    Except String (TriggerEvaluator × CycleResult) :=
  if has_valid_orderbook s = true ∧ ev.tick ≤ 0 then
    .error "tick_size_points must be positive"
  else evaluate_cycle_core ev s cycle_number cycle_time time_remaining

/-! ## Settlement and feed-gap operations -/

/-- Finalize one active attempt as failed with the given reason,
pulling closest approach and MAE from the trackers when present, and
dropping its tracker entries. -/
def settle_one (ev : TriggerEvaluator) (a : Attempt) (time_remaining : ℚ)
    (fail_reason : String) : TriggerEvaluator × Attempt :=
  let key := a.attempt_id
  let a1 := { a with status := AttemptStatus.COMPLETED_FAILED
                     fail_reason := some fail_reason
                     time_remaining_at_completion := some time_remaining }
  let a2 :=
    match dictGet ev.closest_approach key with
    | some v =>
      { a1 with closest_approach_points := some v
                closest_approach_timestamp := dictGet ev.closest_approach_ts key
                closest_approach_cycle_number := dictGet ev.closest_approach_cn key }
    | none => a1
  let a3 :=
    match dictGet ev.mae key with
    | some m =>
      { a2 with max_adverse_excursion_points := some m
                mae_timestamp := dictGet ev.mae_ts key
                mae_cycle_number := dictGet ev.mae_cn key }
    | none => a2
  let ev1 := drop_trackers ev key
  ({ ev1 with total_failed := ev1.total_failed + 1 }, a3)

/-- Settle every attempt of the list in order. -/
def settle_all (time_remaining : ℚ) (fail_reason : String) :
    List Attempt → TriggerEvaluator → TriggerEvaluator × List Attempt
  | [], ev => (ev, [])
  | a :: rest, ev =>
    let step := settle_one ev a time_remaining fail_reason
    let step2 := settle_all time_remaining fail_reason rest step.1
    (step2.1, step.2 :: step2.2)

/-- process_settlement (trigger_evaluator.py lines 454—502): discard
pending limits, fail every remaining active attempt, and return them. -/
def process_settlement (ev : TriggerEvaluator) (settlement_time : Int)
    (time_remaining : ℚ) (fail_reason : String) :
    TriggerEvaluator × List Attempt :=
  let _ := settlement_time  -- used only for logging in the source
  let ev0 := { ev with pending_limits := [] }
  let step := settle_all time_remaining fail_reason ev0.active_attempts ev0
  ({ step.1 with active_attempts := [] }, step.2)

/-- mark_feed_gap (trigger_evaluator.py lines 508—511). -/
def mark_feed_gap (ev : TriggerEvaluator) : TriggerEvaluator :=
  { ev with active_attempts :=
      ev.active_attempts.map (fun a => { a with had_feed_gap := true }) }

/-! ## Cycle scheduling (market_monitor.py `_calculate_schedule`) -/

/-- Determine the cycle interval and the planned cycle count.
FIXED_INTERVAL keeps the configured interval and plans
`max(1, int(remaining / interval))` cycles; FIXED_COUNT keeps the
configured count and divides the remaining time by it, with a one
second minimum. -/
def calculate_schedule (mode : SamplingMode) (cycle_interval_seconds : ℚ)
    (cycles_per_market : Int) (time_remaining_at_start : ℚ) : ℚ × Int :=
  match mode with
  | SamplingMode.FIXED_INTERVAL =>
    (cycle_interval_seconds,
     max 1 (pyTrunc (time_remaining_at_start / cycle_interval_seconds)))
  | SamplingMode.FIXED_COUNT =>
    (max 1 (time_remaining_at_start / (cycles_per_market : ℚ)),
     cycles_per_market)

/-! ## Derived formulas used in statements -/

/-- The maker limit price the evaluator computes for one side of a
snapshot in step 4 (the midpoint arguments the source passes from the
enclosing scope, inlined). -/
def maker_limit (ev : TriggerEvaluator) (s : Snapshot) (side : Side) : Int :=
  limit_price_from
    (if side == Side.YES then
       midpoint_half_points (pyOrZero s.yes_bid_points) (pyOrZero s.yes_ask_points)
     else
       midpoint_half_points (pyOrZero s.no_bid_points) (pyOrZero s.no_ask_points))
    (pyOrZero (if side == Side.YES then s.yes_ask_points else s.no_ask_points))
    ev.params.S0_points ev.params.maker_buffer_points ev.tick

/-- Modelled from the spec: the ASK_TOUCH first-leg trigger formula of
spec section 4.F step 3, `clamp_trigger(floor_to_tick(100 + S0 − opposite_ask), tick)`.
This formula appears nowhere in the source; it is stated here so the
claim can be compared against what `evaluate_cycle` actually computes. -/
def spec_side_trigger (S0 opposite_ask tick : Int) : Int :=
  clamp_trigger (round_to_tick_int (100 + S0 - opposite_ask) tick) tick

/-- Per-evaluator attempt-count bookkeeping invariant: total attempts
split exactly into pairs, failures and the still-active ones. -/
def counters_consistent (ev : TriggerEvaluator) : Prop :=
  ev.total_attempts = ev.total_pairs + ev.total_failed + ev.active_attempts.length

/-- All price fields of a snapshot lie in the real point range [0, 100]
(prices are cents of a dollar-settled binary share). -/
def price_field_ok (o : Option Int) : Bool :=
  match o with
  | some v => decide (0 ≤ v ∧ v ≤ 100)
  | none => true

/-- Boundedness of every price field of a snapshot. -/
def snap_prices_bounded (s : Snapshot) : Bool :=
  price_field_ok s.yes_bid_points && price_field_ok s.yes_ask_points &&
  price_field_ok s.no_bid_points && price_field_ok s.no_ask_points &&
  price_field_ok s.yes_period_low_ask_points && price_field_ok s.no_period_low_ask_points &&
  price_field_ok s.yes_period_low_bid_points && price_field_ok s.no_period_low_bid_points

/-- The pending-limit record step 4 posts for one side (the tuple of
trigger_evaluator.py lines 234—242, as a standalone constructor so the
step-4 state can be written down in closed form). -/
def posted_limit (sd : Side) (lp ask ry rn pc pt : Int) : PendingLimit :=
  { side := sd
    limit_price_points := lp
    ask_at_placement_points := ask
    reference_yes_points := ry
    reference_no_points := rn
    placed_cycle := pc
    placed_timestamp := pt }

/-- Every stored pending limit is at least one tick (step 4 only ever
stores clamped limit prices, so this is an invariant of reachable
evaluator states). -/
def pendings_ge_tick (tick : Int) (d : List (Side × PendingLimit)) : Prop :=
  ∀ p ∈ d, tick ≤ p.2.limit_price_points

/-! ## Concrete fixtures for the claims -/

/-- Default attempt used only as a `getD` fallback in fixtures. -/
def attempt0 : Attempt :=
  { attempt_id := 0, market_id := "", parameter_set_id := 0, cycle_number := 0,
    t1_timestamp := 0, first_leg_side := Side.YES, P1_points := 0,
    reference_yes_points := 0, reference_no_points := 0,
    opposite_side := Side.NO, opposite_trigger_points := 0,
    opposite_max_points := 0 }

/-- Parameter set of the spec's end-to-end scenarios: S0 = 1, delta = 5
(pair cap 95), maker buffer 2, no stop loss. -/
def psUnit : ParameterSet :=
  { name := "unit", S0_points := 1, delta_points := 5,
    trigger_rule := TriggerRule.ASK_TOUCH,
    reference_price_source := ReferencePriceSource.MIDPOINT,
    stop_loss_threshold_points := none, maker_buffer_points := 2,
    parameter_set_id := some 1 }

/-- A one-point-tick market. -/
def miUnit : MarketInfo :=
  { market_slug := "m", condition_id := "c", crypto_asset := "btc",
    yes_token_id := "y", no_token_id := "n", settlement_time := 900,
    tick_size_points := 1, active := true, accepting_orders := true }

/-- Fresh evaluator on the unit-tick market. -/
def evUnit : TriggerEvaluator := mkTriggerEvaluator psUnit miUnit 2 false

/-- Scenario-1 snapshot A/B merged: symmetric 48/52 books with the YES
period-low ask dipping to 49 (at the YES maker limit). -/
def snap1 : Snapshot :=
  { market_id := "m", cycle_number := 1, timestamp := 10,
    yes_bid_points := some 48, yes_ask_points := some 52,
    no_bid_points := some 48, no_ask_points := some 52,
    yes_period_low_ask_points := some 49 }

/-- Evaluator state after the scenario-1 fill cycle. -/
def st1 : TriggerEvaluator :=
  ((evaluate_cycle evUnit snap1 1 10 800).toOption.map Prod.fst).getD evUnit

/-- Scenario-1 snapshot C: the NO period-low ask reaches the opposite
trigger 46, pairing the attempt. -/
def snap2 : Snapshot :=
  { market_id := "m", cycle_number := 2, timestamp := 20,
    yes_bid_points := some 48, yes_ask_points := some 52,
    no_bid_points := some 48, no_ask_points := some 52,
    no_period_low_ask_points := some 46 }

/-- Result pair of the scenario-1 pairing cycle. -/
def run2 : TriggerEvaluator × CycleResult :=
  (evaluate_cycle st1 snap2 2 20 790).toOption.getD (st1, {})

/-- The attempt paired in the scenario-1 pairing cycle. -/
def attPaired : Attempt :=
  (((evaluate_cycle st1 snap2 2 20 790).toOption.map
      (fun p => p.2.paired_attempts)).getD []).headD attempt0

/-- Result pair of the scenario-1 fill cycle. -/
def run1 : TriggerEvaluator × CycleResult :=
  (evaluate_cycle evUnit snap1 1 10 800).toOption.getD (evUnit, {})

/-- The attempt created in the scenario-1 fill cycle. -/
def attFirst : Attempt := run1.2.new_attempts.headD attempt0

/-- Snapshot with a missing NO bid: fails orderbook validation. -/
def snapInvalid : Snapshot :=
  { market_id := "m", cycle_number := 3, timestamp := 30,
    yes_bid_points := some 48, yes_ask_points := some 52,
    no_bid_points := none, no_ask_points := some 52 }

/-- C1 fixture: parameter set with a 3-point stop loss (spec scenario 3). -/
def psSL : ParameterSet :=
  { psUnit with stop_loss_threshold_points := some 3 }

/-- C1 fixture: active attempt at P1 = 49 whose stop-loss price is 46. -/
def attC1 : Attempt :=
  { attempt_id := 1, market_id := "m", parameter_set_id := 1, cycle_number := 1,
    t1_timestamp := 10, first_leg_side := Side.YES, P1_points := 49,
    reference_yes_points := 50, reference_no_points := 50,
    opposite_side := Side.NO, opposite_trigger_points := 46,
    opposite_max_points := 46, delta_points := some 5, S0_points := some 1,
    stop_loss_threshold_points := some 3, stop_loss_price_points := some 46 }

/-- C1 fixture: evaluator holding that attempt. -/
def evC1 : TriggerEvaluator :=
  { mkTriggerEvaluator psSL miUnit 2 false with
    active_attempts := [attC1], total_attempts := 1, attempt_counter := 1 }

/-- C1 fixture: the YES bid has dipped to the stop-loss price 46; the
NO ask stays away from the opposite trigger. -/
def snapC1 : Snapshot :=
  { market_id := "m", cycle_number := 2, timestamp := 20,
    yes_bid_points := some 46, yes_ask_points := some 52,
    no_bid_points := some 48, no_ask_points := some 52 }

/-- C2 fixture: a type-valid snapshot with an absurd NO-side book — the
YES maker limit fills, and the new attempt's opposite ask is 9954
points above its trigger, which drives the closest-approach tracker
into its KeyError. -/
def snapC2 : Snapshot :=
  { market_id := "m", cycle_number := 1, timestamp := 10,
    yes_bid_points := some 48, yes_ask_points := some 52,
    no_bid_points := some 10000, no_ask_points := some 20000,
    yes_period_low_ask_points := some 49 }

/-- C3 fixture: asymmetric YES book (bid 40, ask 52).  The spec's
ASK_TOUCH formula puts the YES trigger at 49 and the period-low ask 46
below it, but the maker-limit evaluator computes limit 45 and does not
fire. -/
def snapC3 : Snapshot :=
  { market_id := "m", cycle_number := 1, timestamp := 10,
    yes_bid_points := some 40, yes_ask_points := some 52,
    no_bid_points := some 48, no_ask_points := some 52,
    yes_period_low_ask_points := some 46 }

/-- Result pair of a cycle on `snapC3`. -/
def runC3 : TriggerEvaluator × CycleResult :=
  (evaluate_cycle evUnit snapC3 1 10 800).toOption.getD (evUnit, {})

/-- C5/C6 fixture: parameter set with delta = 3 (pair cap 97) and maker
buffer 1 on a five-point-tick market. -/
def psT5 : ParameterSet :=
  { name := "t5", S0_points := 1, delta_points := 3,
    trigger_rule := TriggerRule.ASK_TOUCH,
    reference_price_source := ReferencePriceSource.MIDPOINT,
    stop_loss_threshold_points := none, maker_buffer_points := 1,
    parameter_set_id := some 2 }

/-- Five-point-tick market. -/
def miT5 : MarketInfo :=
  { market_slug := "m5", condition_id := "c", crypto_asset := "btc",
    yes_token_id := "y", no_token_id := "n", settlement_time := 900,
    tick_size_points := 5, active := true, accepting_orders := true }

/-- Fresh evaluator on the five-point-tick market. -/
def evT5 : TriggerEvaluator := mkTriggerEvaluator psT5 miT5 2 false

/-- C5 fixture: the YES limit lands at 95 (< cap 97) and fills; the
pair constraint 97 − 95 = 2 floors to 0 below the 5-point tick and is
bumped to one tick. -/
def snapC5 : Snapshot :=
  { market_id := "m5", cycle_number := 1, timestamp := 10,
    yes_bid_points := some 98, yes_ask_points := some 100,
    no_bid_points := some 30, no_ask_points := some 40,
    yes_period_low_ask_points := some 95 }

/-- Evaluator state after the C5 fill cycle. -/
def st5 : TriggerEvaluator :=
  ((evaluate_cycle evT5 snapC5 1 10 800).toOption.map Prod.fst).getD evT5

/-- C6 fixture: the NO period-low ask reaches the bumped trigger 5, so
the over-cap attempt pairs at cost 100 and profit 0 < delta. -/
def snapC6 : Snapshot :=
  { market_id := "m5", cycle_number := 2, timestamp := 20,
    yes_bid_points := some 98, yes_ask_points := some 100,
    no_bid_points := some 4, no_ask_points := some 6,
    no_period_low_ask_points := some 5 }

/-- C7 fixture, cycle 1: the YES limit fills same-cycle, so the pending
dict afterwards holds only the NO side. -/
def snapC7a : Snapshot :=
  { market_id := "m", cycle_number := 1, timestamp := 10,
    yes_bid_points := some 48, yes_ask_points := some 52,
    no_bid_points := some 48, no_ask_points := some 52,
    yes_period_low_ask_points := some 49 }

/-- State after the C7 cycle 1. -/
def stC7a : TriggerEvaluator :=
  ((evaluate_cycle evUnit snapC7a 1 10 800).toOption.map Prod.fst).getD evUnit

/-- C7 fixture, cycle 2: no fills; the YES limit is re-placed and the
pending dict order becomes NO before YES. -/
def snapC7b : Snapshot :=
  { market_id := "m", cycle_number := 2, timestamp := 20,
    yes_bid_points := some 48, yes_ask_points := some 52,
    no_bid_points := some 48, no_ask_points := some 52 }

/-- State after the C7 cycle 2. -/
def stC7b : TriggerEvaluator :=
  ((evaluate_cycle stC7a snapC7b 2 20 790).toOption.map Prod.fst).getD stC7a

/-- C7 fixture, cycle 3: both period-low asks hit both limits at equal
distance 0; the delayed-fill loop emits them in dict order NO, YES. -/
def snapC7c : Snapshot :=
  { market_id := "m", cycle_number := 3, timestamp := 30,
    yes_bid_points := some 48, yes_ask_points := some 52,
    no_bid_points := some 48, no_ask_points := some 52,
    yes_period_low_ask_points := some 49,
    no_period_low_ask_points := some 49 }

/-- C7 witness fixture: a single cycle in which both sides fill with
distances 0 (YES) and 1 (NO), so the NO attempt is emitted first. -/
def snapC7w : Snapshot :=
  { market_id := "m", cycle_number := 1, timestamp := 10,
    yes_bid_points := some 48, yes_ask_points := some 52,
    no_bid_points := some 48, no_ask_points := some 52,
    yes_period_low_ask_points := some 49,
    no_period_low_ask_points := some 48 }

/-- Result pair of the C7 witness cycle. -/
def runC7w : TriggerEvaluator × CycleResult :=
  (evaluate_cycle evUnit snapC7w 1 10 800).toOption.getD (evUnit, {})

/-- The two attempts of the C7 witness cycle. -/
def attC7w0 : Attempt :=
  (((evaluate_cycle evUnit snapC7w 1 10 800).toOption.map
      (fun p => p.2.new_attempts)).getD []).headD attempt0

/-- Second attempt of the C7 witness cycle. -/
def attC7w1 : Attempt :=
  ((((evaluate_cycle evUnit snapC7w 1 10 800).toOption.map
      (fun p => p.2.new_attempts)).getD []).drop 1).headD attempt0

/-! ## Arithmetic helper lemmas -/

theorem ite_lt_eq_max (x t : Int) : (if x < t then t else x) = max t x := by
  rcases le_total t x with h | h
  · rw [if_neg (not_lt.mpr h), max_eq_right h]
  · rcases lt_or_eq_of_le h with h' | h'
    · rw [if_pos h', max_eq_left h]
    · subst h'; simp

theorem clamp_trigger_ge (p t : Int) : t ≤ clamp_trigger p t :=
  le_max_left _ _

theorem round_to_tick_int_le (raw tick : Int) (h : 0 < tick) :
    round_to_tick_int raw tick ≤ raw := by
  unfold round_to_tick_int
  rw [Int.fdiv_eq_ediv _ (le_of_lt h)]
  exact Int.ediv_mul_le raw (ne_of_gt h)

/-! ## Dictionary lemmas -/

theorem find?_cons_pos {α : Type} (p : α → Bool) (a : α) (l : List α) (h : p a = true) :
    (a :: l).find? p = some a := by
  simp [List.find?, h]

theorem find?_cons_neg {α : Type} (p : α → Bool) (a : α) (l : List α) (h : p a = false) :
    (a :: l).find? p = l.find? p := by
  simp [List.find?, h]

theorem find?_append_of_none {α : Type} (p : α → Bool) (l₁ l₂ : List α)
    (h : l₁.find? p = none) : (l₁ ++ l₂).find? p = l₂.find? p := by
  induction l₁ with
  | nil => simp
  | cons a rest ih =>
    by_cases hp : p a = true
    · rw [find?_cons_pos p a rest hp] at h; exact absurd h (by simp)
    · rw [find?_cons_neg p a rest (by simpa using hp)] at h
      rw [List.cons_append, find?_cons_neg p a _ (by simpa using hp)]
      exact ih h

theorem find?_map_replace {κ α : Type} [BEq κ] [LawfulBEq κ]
    (d : List (κ × α)) (k : κ) (v : α) :
    (d.map (fun p => if p.1 == k then (k, v) else p)).find? (fun p => p.1 == k) =
      if (d.find? (fun p => p.1 == k)).isSome then some (k, v) else none := by
  induction d with
  | nil => simp
  | cons p rest ih =>
    by_cases h : p.1 == k
    · simp only [List.map_cons, if_pos h]
      rw [find?_cons_pos _ _ _ (by simp), find?_cons_pos _ _ _ (by simpa using h)]
      simp
    · simp only [List.map_cons, if_neg h]
      rw [find?_cons_neg _ _ _ (by simpa using h), find?_cons_neg _ _ _ (by simpa using h)]
      exact ih

theorem dictGet_dictSet_self {κ α : Type} [BEq κ] [LawfulBEq κ]
    (d : List (κ × α)) (k : κ) (v : α) :
    dictGet (dictSet d k v) k = some v := by
  unfold dictGet dictSet
  by_cases h : (d.find? (fun p => p.1 == k)).isSome
  · rw [if_pos h, find?_map_replace, if_pos h]
    rfl
  · rw [if_neg h]
    rw [find?_append_of_none _ _ _ (Option.not_isSome_iff_eq_none.mp h)]
    rw [find?_cons_pos _ _ _ (by simp)]
    rfl

theorem dictSet_mem {κ α : Type} [BEq κ] (d : List (κ × α)) (k : κ) (v : α)
    (q : κ × α) (h : q ∈ dictSet d k v) : q ∈ d ∨ q = (k, v) := by
  unfold dictSet at h
  split at h
  · obtain ⟨p, hp, hq⟩ := List.mem_map.mp h
    by_cases hk : p.1 == k
    · right; rw [← hq]; simp [hk]
    · left; rw [← hq]; simpa [hk]
  · rcases List.mem_append.mp h with h | h
    · left; exact h
    · right; simpa using h

theorem dictPop_subset {κ α : Type} [BEq κ] (d : List (κ × α)) (k : κ)
    (q : κ × α) (h : q ∈ dictPop d k) : q ∈ d :=
  List.mem_of_mem_filter h

/-! ## Attempt-construction lemmas -/

theorem create_attempt_state (ev : TriggerEvaluator) (p : PendingLimit)
    (ry rn n t : Int) (tr : ℚ) (s : Snapshot) (cf : Int) :
    (create_attempt_from_pending ev p ry rn n t tr s cf).1 =
      { ev with attempt_counter := ev.attempt_counter + 1,
                total_attempts := ev.total_attempts + 1 } := rfl

theorem create_attempt_total (ev : TriggerEvaluator) (p : PendingLimit)
    (ry rn n t : Int) (tr : ℚ) (s : Snapshot) (cf : Int) :
    (create_attempt_from_pending ev p ry rn n t tr s cf).1.total_attempts =
      ev.total_attempts + 1 := rfl

theorem create_attempt_P1 (ev : TriggerEvaluator) (p : PendingLimit)
    (ry rn n t : Int) (tr : ℚ) (s : Snapshot) (cf : Int) :
    (create_attempt_from_pending ev p ry rn n t tr s cf).2.P1_points =
      p.limit_price_points := rfl

theorem create_attempt_opp_max (ev : TriggerEvaluator) (p : PendingLimit)
    (ry rn n t : Int) (tr : ℚ) (s : Snapshot) (cf : Int) :
    (create_attempt_from_pending ev p ry rn n t tr s cf).2.opposite_max_points =
      max ev.tick (round_to_tick_int (ev.params.pair_cap_points - p.limit_price_points) ev.tick) := by
  show (if round_to_tick_int (ev.params.pair_cap_points - p.limit_price_points) ev.tick < ev.tick
        then ev.tick
        else round_to_tick_int (ev.params.pair_cap_points - p.limit_price_points) ev.tick) = _
  exact ite_lt_eq_max _ _

theorem create_attempt_trigger (ev : TriggerEvaluator) (p : PendingLimit)
    (ry rn n t : Int) (tr : ℚ) (s : Snapshot) (cf : Int) :
    (create_attempt_from_pending ev p ry rn n t tr s cf).2.opposite_trigger_points =
      min (clamp_trigger
            (round_to_tick_int
              ((if p.side.opposite == Side.YES then ry else rn) - ev.params.S0_points) ev.tick)
            ev.tick)
          ((create_attempt_from_pending ev p ry rn n t tr s cf).2.opposite_max_points) := rfl

theorem create_attempt_trigger_le (ev : TriggerEvaluator) (p : PendingLimit)
    (ry rn n t : Int) (tr : ℚ) (s : Snapshot) (cf : Int) :
    (create_attempt_from_pending ev p ry rn n t tr s cf).2.opposite_trigger_points ≤
      (create_attempt_from_pending ev p ry rn n t tr s cf).2.opposite_max_points := by
  rw [create_attempt_trigger]; exact min_le_right _ _

theorem create_attempt_trigger_ge (ev : TriggerEvaluator) (p : PendingLimit)
    (ry rn n t : Int) (tr : ℚ) (s : Snapshot) (cf : Int) :
    ev.tick ≤ (create_attempt_from_pending ev p ry rn n t tr s cf).2.opposite_trigger_points := by
  rw [create_attempt_trigger]
  refine le_min (clamp_trigger_ge _ _) ?_
  rw [create_attempt_opp_max]
  exact le_max_left _ _

/-! ## Fill-scan lemmas -/

theorem check_pending_fills_state (s : Snapshot) (yl nl : Option Int)
    (ry rn n t : Int) (tr : ℚ) :
    ∀ (items : List (Side × PendingLimit)) (ev : TriggerEvaluator),
      (check_pending_fills s yl nl ry rn n t tr items ev).1.tick = ev.tick ∧
      (check_pending_fills s yl nl ry rn n t tr items ev).1.params = ev.params ∧
      (check_pending_fills s yl nl ry rn n t tr items ev).1.active_attempts = ev.active_attempts ∧
      (check_pending_fills s yl nl ry rn n t tr items ev).1.pending_limits = ev.pending_limits ∧
      (check_pending_fills s yl nl ry rn n t tr items ev).1.total_pairs = ev.total_pairs ∧
      (check_pending_fills s yl nl ry rn n t tr items ev).1.total_failed = ev.total_failed ∧
      (check_pending_fills s yl nl ry rn n t tr items ev).1.max_concurrent = ev.max_concurrent ∧
      (check_pending_fills s yl nl ry rn n t tr items ev).1.total_attempts =
        ev.total_attempts + (check_pending_fills s yl nl ry rn n t tr items ev).2.1.length := by
  intro items
  induction items with
  | nil => intro ev; simp [check_pending_fills]
  | cons hd rest ih =>
    intro ev
    obtain ⟨side, pending⟩ := hd
    simp only [check_pending_fills]
    split
    · split
      · have h1 := ih (create_attempt_from_pending ev pending ry rn n t tr s
          (n - pending.placed_cycle)).1
        refine ⟨h1.1, h1.2.1, h1.2.2.1, h1.2.2.2.1, h1.2.2.2.2.1,
          h1.2.2.2.2.2.1, h1.2.2.2.2.2.2.1, ?_⟩
        have h2 := h1.2.2.2.2.2.2.2
        rw [create_attempt_total] at h2
        simp only [List.length_cons]
        omega
      · exact ih ev
    · exact ih ev

theorem same_cycle_fill_scan_state (s : Snapshot) (yl nl : Option Int)
    (ry rn n t : Int) (tr : ℚ) :
    ∀ (items : List (Side × PendingLimit)) (ev : TriggerEvaluator),
      (same_cycle_fill_scan s yl nl ry rn n t tr items ev).1.tick = ev.tick ∧
      (same_cycle_fill_scan s yl nl ry rn n t tr items ev).1.params = ev.params ∧
      (same_cycle_fill_scan s yl nl ry rn n t tr items ev).1.active_attempts = ev.active_attempts ∧
      (same_cycle_fill_scan s yl nl ry rn n t tr items ev).1.pending_limits = ev.pending_limits ∧
      (same_cycle_fill_scan s yl nl ry rn n t tr items ev).1.total_pairs = ev.total_pairs ∧
      (same_cycle_fill_scan s yl nl ry rn n t tr items ev).1.total_failed = ev.total_failed ∧
      (same_cycle_fill_scan s yl nl ry rn n t tr items ev).1.max_concurrent = ev.max_concurrent ∧
      (same_cycle_fill_scan s yl nl ry rn n t tr items ev).1.total_attempts =
        ev.total_attempts + (same_cycle_fill_scan s yl nl ry rn n t tr items ev).2.1.length := by
  intro items
  induction items with
  | nil => intro ev; simp [same_cycle_fill_scan]
  | cons hd rest ih =>
    intro ev
    obtain ⟨side, pending⟩ := hd
    simp only [same_cycle_fill_scan]
    split
    · have h1 := ih (create_attempt_from_pending ev pending ry rn n t tr s 0).1
      refine ⟨h1.1, h1.2.1, h1.2.2.1, h1.2.2.2.1, h1.2.2.2.2.1,
        h1.2.2.2.2.2.1, h1.2.2.2.2.2.2.1, ?_⟩
      have h2 := h1.2.2.2.2.2.2.2
      rw [create_attempt_total] at h2
      simp only [List.length_cons]
      omega
    · exact ih ev

theorem check_pending_fills_created (s : Snapshot) (yl nl : Option Int)
    (ry rn n t : Int) (tr : ℚ) :
    ∀ (items : List (Side × PendingLimit)) (ev : TriggerEvaluator),
      ∀ a ∈ (check_pending_fills s yl nl ry rn n t tr items ev).2.1,
        (∃ p ∈ items, a.P1_points = p.2.limit_price_points) ∧
        a.opposite_max_points =
          max ev.tick (round_to_tick_int (ev.params.pair_cap_points - a.P1_points) ev.tick) ∧
        a.opposite_trigger_points ≤ a.opposite_max_points ∧
        ev.tick ≤ a.opposite_trigger_points := by
  intro items
  induction items with
  | nil => intro ev a ha; simp [check_pending_fills] at ha
  | cons hd rest ih =>
    intro ev a ha
    obtain ⟨side, pending⟩ := hd
    simp only [check_pending_fills] at ha
    split at ha
    · split at ha
      · rcases List.mem_cons.mp ha with rfl | ha'
        · refine ⟨⟨(side, pending), List.mem_cons_self _ _,
            create_attempt_P1 ev pending ry rn n t tr s _⟩, ?_,
            create_attempt_trigger_le ev pending ry rn n t tr s _,
            create_attempt_trigger_ge ev pending ry rn n t tr s _⟩
          rw [create_attempt_P1, create_attempt_opp_max]
        · have h := ih _ a ha'
          obtain ⟨p, hp, he⟩ := h.1
          exact ⟨⟨p, List.mem_cons_of_mem _ hp, he⟩, h.2.1, h.2.2.1, h.2.2.2⟩
      · have h := ih ev a ha
        obtain ⟨p, hp, he⟩ := h.1
        exact ⟨⟨p, List.mem_cons_of_mem _ hp, he⟩, h.2.1, h.2.2.1, h.2.2.2⟩
    · have h := ih ev a ha
      obtain ⟨p, hp, he⟩ := h.1
      exact ⟨⟨p, List.mem_cons_of_mem _ hp, he⟩, h.2.1, h.2.2.1, h.2.2.2⟩

theorem same_cycle_fill_scan_created (s : Snapshot) (yl nl : Option Int)
    (ry rn n t : Int) (tr : ℚ) :
    ∀ (items : List (Side × PendingLimit)) (ev : TriggerEvaluator),
      ∀ a ∈ (same_cycle_fill_scan s yl nl ry rn n t tr items ev).2.1,
        (∃ p ∈ items, a.P1_points = p.2.limit_price_points) ∧
        a.opposite_max_points =
          max ev.tick (round_to_tick_int (ev.params.pair_cap_points - a.P1_points) ev.tick) ∧
        a.opposite_trigger_points ≤ a.opposite_max_points ∧
        ev.tick ≤ a.opposite_trigger_points := by
  intro items
  induction items with
  | nil => intro ev a ha; simp [same_cycle_fill_scan] at ha
  | cons hd rest ih =>
    intro ev a ha
    obtain ⟨side, pending⟩ := hd
    simp only [same_cycle_fill_scan] at ha
    split at ha
    · rcases List.mem_cons.mp ha with rfl | ha'
      · refine ⟨⟨(side, pending), List.mem_cons_self _ _,
          create_attempt_P1 ev pending ry rn n t tr s _⟩, ?_,
          create_attempt_trigger_le ev pending ry rn n t tr s _,
          create_attempt_trigger_ge ev pending ry rn n t tr s _⟩
        rw [create_attempt_P1, create_attempt_opp_max]
      · have h := ih _ a ha'
        obtain ⟨p, hp, he⟩ := h.1
        exact ⟨⟨p, List.mem_cons_of_mem _ hp, he⟩, h.2.1, h.2.2.1, h.2.2.2⟩
    · have h := ih ev a ha
      obtain ⟨p, hp, he⟩ := h.1
      exact ⟨⟨p, List.mem_cons_of_mem _ hp, he⟩, h.2.1, h.2.2.1, h.2.2.2⟩

/-! ## Limit-refresh lemmas -/

theorem limit_price_from_ge (refH ask S0 buf tick : Int) :
    tick ≤ limit_price_from refH ask S0 buf tick :=
  clamp_trigger_ge _ _

theorem refresh_state (s : Snapshot) (yH nH ry rn n t : Int) (fs : List Side)
    (ev : TriggerEvaluator) (side : Side) :
    (refresh_pending_for_side s yH nH ry rn n t fs ev side).tick = ev.tick ∧
    (refresh_pending_for_side s yH nH ry rn n t fs ev side).params = ev.params ∧
    (refresh_pending_for_side s yH nH ry rn n t fs ev side).active_attempts = ev.active_attempts ∧
    (refresh_pending_for_side s yH nH ry rn n t fs ev side).attempt_counter = ev.attempt_counter ∧
    (refresh_pending_for_side s yH nH ry rn n t fs ev side).total_attempts = ev.total_attempts ∧
    (refresh_pending_for_side s yH nH ry rn n t fs ev side).total_pairs = ev.total_pairs ∧
    (refresh_pending_for_side s yH nH ry rn n t fs ev side).total_failed = ev.total_failed ∧
    (refresh_pending_for_side s yH nH ry rn n t fs ev side).max_concurrent = ev.max_concurrent := by
  unfold refresh_pending_for_side
  dsimp only
  split_ifs <;> (refine ⟨?_, ?_, ?_, ?_, ?_, ?_, ?_, ?_⟩ <;> rfl)

theorem refresh_pendings_ge (s : Snapshot) (yH nH ry rn n t : Int) (fs : List Side)
    (ev : TriggerEvaluator) (side : Side)
    (h : pendings_ge_tick ev.tick ev.pending_limits) :
    pendings_ge_tick ev.tick
      (refresh_pending_for_side s yH nH ry rn n t fs ev side).pending_limits := by
  unfold refresh_pending_for_side
  dsimp only
  split_ifs <;>
    first
      | exact h
      | (intro p hp; exact h p (dictPop_subset _ _ _ hp))
      | (intro p hp
         rcases dictSet_mem _ _ _ p hp with hin | he
         · exact h p hin
         · rw [he]; exact limit_price_from_ge _ _ _ _ _)

/-! ## Pair-mark and pairing-sweep lemmas -/

set_option maxHeartbeats 1000000 in
theorem pair_mark_fields (ev : TriggerEvaluator) (a : Attempt) (s : Snapshot)
    (n t : Int) (tr : ℚ) :
    (pair_mark ev a s n t tr).status = AttemptStatus.COMPLETED_PAIRED ∧
    (pair_mark ev a s n t tr).P1_points = a.P1_points ∧
    (pair_mark ev a s n t tr).opposite_trigger_points = a.opposite_trigger_points ∧
    (pair_mark ev a s n t tr).actual_opposite_price = some a.opposite_trigger_points ∧
    (pair_mark ev a s n t tr).pair_cost_points = some (a.P1_points + a.opposite_trigger_points) ∧
    (pair_mark ev a s n t tr).pair_profit_points =
      some (100 - (a.P1_points + a.opposite_trigger_points)) ∧
    (pair_mark ev a s n t tr).closest_approach_points = some 0 := by
  unfold pair_mark
  dsimp only
  cases hm : dictGet ev.mae a.attempt_id <;>
    cases hya : s.yes_ask_points <;> cases hyb : s.yes_bid_points <;>
    cases hna : s.no_ask_points <;> cases hnb : s.no_bid_points <;>
    exact ⟨rfl, rfl, rfl, rfl, rfl, rfl, rfl⟩

theorem pairing_sweep_shape (s : Snapshot) (n t : Int) (tr : ℚ) :
    ∀ (l : List Attempt) (ev : TriggerEvaluator),
      (pairing_sweep s n t tr l ev).2.1.length + (pairing_sweep s n t tr l ev).2.2.length =
        l.length ∧
      (pairing_sweep s n t tr l ev).1.total_pairs =
        ev.total_pairs + (pairing_sweep s n t tr l ev).2.1.length ∧
      (pairing_sweep s n t tr l ev).1.total_attempts = ev.total_attempts ∧
      (pairing_sweep s n t tr l ev).1.total_failed = ev.total_failed ∧
      (pairing_sweep s n t tr l ev).1.tick = ev.tick ∧
      (pairing_sweep s n t tr l ev).1.params = ev.params ∧
      (pairing_sweep s n t tr l ev).1.pending_limits = ev.pending_limits ∧
      (pairing_sweep s n t tr l ev).1.active_attempts = ev.active_attempts ∧
      (pairing_sweep s n t tr l ev).1.max_concurrent = ev.max_concurrent := by
  intro l
  induction l with
  | nil => intro ev; simp [pairing_sweep]
  | cons a rest ih =>
    intro ev
    simp only [pairing_sweep]
    split
    · dsimp only [drop_trackers]
      have h1 := ih (drop_trackers { ev with total_pairs := ev.total_pairs + 1 } a.attempt_id)
      dsimp only [drop_trackers] at h1
      refine ⟨?_, ?_, h1.2.2.1, h1.2.2.2.1, h1.2.2.2.2.1, h1.2.2.2.2.2.1,
        h1.2.2.2.2.2.2.1, h1.2.2.2.2.2.2.2.1, h1.2.2.2.2.2.2.2.2⟩
      · have := h1.1
        simp only [List.length_cons]
        omega
      · have h2 := h1.2.1
        simp only [List.length_cons]
        omega
    · have h1 := ih ev
      refine ⟨?_, h1.2.1, h1.2.2.1, h1.2.2.2.1, h1.2.2.2.2.1, h1.2.2.2.2.2.1,
        h1.2.2.2.2.2.2.1, h1.2.2.2.2.2.2.2.1, h1.2.2.2.2.2.2.2.2⟩
      have := h1.1
      simp only [List.length_cons]
      omega

theorem pairing_sweep_still_mem (s : Snapshot) (n t : Int) (tr : ℚ) :
    ∀ (l : List Attempt) (ev : TriggerEvaluator),
      ∀ a ∈ (pairing_sweep s n t tr l ev).2.2, a ∈ l := by
  intro l
  induction l with
  | nil => intro ev a ha; simp [pairing_sweep] at ha
  | cons b rest ih =>
    intro ev a ha
    simp only [pairing_sweep] at ha
    split at ha
    · exact List.mem_cons_of_mem _ (ih _ a ha)
    · rcases List.mem_cons.mp ha with rfl | ha'
      · exact List.mem_cons_self _ _
      · exact List.mem_cons_of_mem _ (ih _ a ha')

theorem pairing_sweep_paired_spec (s : Snapshot) (n t : Int) (tr : ℚ) :
    ∀ (l : List Attempt) (ev : TriggerEvaluator),
      ∀ a ∈ (pairing_sweep s n t tr l ev).2.1,
        a.status = AttemptStatus.COMPLETED_PAIRED ∧
        a.actual_opposite_price = some a.opposite_trigger_points ∧
        a.pair_cost_points = some (a.P1_points + a.opposite_trigger_points) ∧
        a.pair_profit_points = some (100 - (a.P1_points + a.opposite_trigger_points)) ∧
        a.closest_approach_points = some 0 := by
  intro l
  induction l with
  | nil => intro ev a ha; simp [pairing_sweep] at ha
  | cons b rest ih =>
    intro ev a ha
    simp only [pairing_sweep] at ha
    split at ha
    · rcases List.mem_cons.mp ha with rfl | ha'
      · have h := pair_mark_fields ev b s n t tr
        refine ⟨h.1, ?_, ?_, ?_, h.2.2.2.2.2.2⟩
        · rw [h.2.2.2.1, h.2.2.1]
        · rw [h.2.2.2.2.1, h.2.1, h.2.2.1]
        · rw [h.2.2.2.2.2.1, h.2.1, h.2.2.1]
      · exact ih _ a ha'
    · exact ih _ a ha

/-! ## Tie-break lemmas -/

theorem reorder_length (yl nl : Option Int) (l : List Attempt) :
    (reorder_simultaneous yl nl l).length = l.length := by
  unfold reorder_simultaneous
  split
  · split <;> rfl
  · rfl

theorem reorder_mem (yl nl : Option Int) (l : List Attempt) (a : Attempt)
    (h : a ∈ reorder_simultaneous yl nl l) : a ∈ l := by
  unfold reorder_simultaneous at h
  split at h
  · split at h <;> (first | (simp_all; tauto) | simp_all)
  · exact h

theorem reorder_sorted (yl nl : Option Int) (l : List Attempt) (a b : Attempt)
    (h : reorder_simultaneous yl nl l = [a, b]) :
    fill_dist yl nl b ≤ fill_dist yl nl a := by
  unfold reorder_simultaneous at h
  split at h
  · rename_i a0 a1
    split at h
    · rename_i hlt
      obtain ⟨rfl, rfl⟩ : a1 = a ∧ a0 = b := by
        constructor <;> [exact (List.cons.injEq ..).mp h |>.1;
          exact ((List.cons.injEq ..).mp h).2 |> fun hh => ((List.cons.injEq ..).mp hh).1]
      exact le_of_lt hlt
    · rename_i hge
      obtain ⟨rfl, rfl⟩ : a0 = a ∧ a1 = b := by
        constructor <;> [exact (List.cons.injEq ..).mp h |>.1;
          exact ((List.cons.injEq ..).mp h).2 |> fun hh => ((List.cons.injEq ..).mp hh).1]
      exact le_of_not_lt hge
  · rename_i hne
    exfalso
    exact hne a b h

/-! ## Tracker lemmas -/

theorem isOk_exists {ε α : Type} (e : Except ε α) (h : e.isOk = true) :
    ∃ x, e = Except.ok x := by
  cases e with
  | error er => simp [Except.isOk, Except.toBool] at h
  | ok x => exact ⟨x, rfl⟩

theorem track_one_isOk (ev : TriggerEvaluator) (a : Attempt) (s : Snapshot) (n t : Int)
    (hb : ∀ v, opp_low_ask s a.opposite_side = some v → v ≤ 100)
    (ht : 0 ≤ a.opposite_trigger_points) :
    (track_one ev a s n t).isOk = true := by
  unfold track_one
  dsimp only
  cases hoa : opp_low_ask s a.opposite_side with
  | none =>
    dsimp only
    split <;> (try split) <;> rfl
  | some oa =>
    dsimp only
    by_cases h0 : (0 : Int) < oa
    · rw [if_pos h0]
      by_cases hdp : oa - a.opposite_trigger_points <
          (dictGet ev.closest_approach a.attempt_id).getD 9999
      · rw [if_pos hdp]
        dsimp only
        rw [dictGet_dictSet_self]
        dsimp only
        split <;> (try split) <;> rfl
      · rw [if_neg hdp]
        cases hget : dictGet ev.closest_approach a.attempt_id with
        | some v =>
          dsimp only
          split <;> (try split) <;> rfl
        | none =>
          exfalso
          have hoa100 : oa ≤ 100 := hb oa hoa
          rw [hget] at hdp
          simp only [Option.getD] at hdp
          omega
    · rw [if_neg h0]
      dsimp only
      split <;> (try split) <;> rfl

theorem track_one_ok_state (ev : TriggerEvaluator) (a : Attempt) (s : Snapshot)
    (n t : Int) (ev2 : TriggerEvaluator) (a2 : Attempt)
    (h : track_one ev a s n t = Except.ok (ev2, a2)) :
    ev2.total_attempts = ev.total_attempts ∧ ev2.total_pairs = ev.total_pairs ∧
    ev2.total_failed = ev.total_failed ∧ ev2.tick = ev.tick ∧
    ev2.params = ev.params ∧ ev2.pending_limits = ev.pending_limits ∧
    ev2.active_attempts = ev.active_attempts ∧
    ev2.max_concurrent = ev.max_concurrent := by
  unfold track_one at h
  dsimp only at h
  split at h
  · simp at h
  · rename_i ev3 a3 heq
    repeat' split at heq
    all_goals
      first
        | exact Except.noConfusion heq
        | (simp only [Except.ok.injEq, Prod.mk.injEq] at heq
           obtain ⟨he3, ha3⟩ := heq
           subst he3
           repeat' split at h
           all_goals
             first
               | exact Except.noConfusion h
               | (simp only [Except.ok.injEq, Prod.mk.injEq] at h
                  obtain ⟨h1, h2⟩ := h
                  subst h1
                  refine ⟨?_, ?_, ?_, ?_, ?_, ?_, ?_, ?_⟩ <;> rfl))

theorem track_all_ok (s : Snapshot) (n t : Int) :
    ∀ (l : List Attempt) (ev : TriggerEvaluator),
      (∀ a ∈ l, (∀ v, opp_low_ask s a.opposite_side = some v → v ≤ 100) ∧
                0 ≤ a.opposite_trigger_points) →
      ∃ ev2 l2, track_all s n t l ev = Except.ok (ev2, l2) ∧
        l2.length = l.length ∧
        ev2.total_attempts = ev.total_attempts ∧
        ev2.total_pairs = ev.total_pairs ∧
        ev2.total_failed = ev.total_failed ∧
        ev2.tick = ev.tick ∧
        ev2.params = ev.params ∧
        ev2.pending_limits = ev.pending_limits ∧
        ev2.max_concurrent = ev.max_concurrent := by
  intro l
  induction l with
  | nil =>
    intro ev _
    exact ⟨ev, [], rfl, rfl, rfl, rfl, rfl, rfl, rfl, rfl, rfl⟩
  | cons a rest ih =>
    intro ev h
    have ha := h a (List.mem_cons_self _ _)
    obtain ⟨q, hq⟩ := isOk_exists _ (track_one_isOk ev a s n t ha.1 ha.2)
    obtain ⟨ev1, a1⟩ := q
    have hst := track_one_ok_state ev a s n t ev1 a1 hq
    obtain ⟨ev2, l2, ho, hlen, hta, htp, htf, htk, hpr, hpd, hmc⟩ :=
      ih ev1 (fun b hb => h b (List.mem_cons_of_mem _ hb))
    refine ⟨ev2, a1 :: l2, ?_, ?_, ?_, ?_, ?_, ?_, ?_, ?_, ?_⟩
    · simp only [track_all]
      rw [hq]
      dsimp only
      rw [ho]
    · simp [hlen]
    · rw [hta, hst.1]
    · rw [htp, hst.2.1]
    · rw [htf, hst.2.2.1]
    · rw [htk, hst.2.2.2.1]
    · rw [hpr, hst.2.2.2.2.1]
    · rw [hpd, hst.2.2.2.2.2.1]
    · rw [hmc, hst.2.2.2.2.2.2.2]

/-! ## Cycle-stage frame lemmas -/

theorem cycle_after3_state (ev : TriggerEvaluator) (s : Snapshot) (n t : Int) (tr : ℚ) :
    (cycle_after3 ev s n t tr).tick = ev.tick ∧
    (cycle_after3 ev s n t tr).params = ev.params ∧
    (cycle_after3 ev s n t tr).active_attempts = ev.active_attempts ∧
    (cycle_after3 ev s n t tr).total_pairs = ev.total_pairs ∧
    (cycle_after3 ev s n t tr).total_failed = ev.total_failed ∧
    (cycle_after3 ev s n t tr).max_concurrent = ev.max_concurrent ∧
    (cycle_after3 ev s n t tr).total_attempts =
      ev.total_attempts + (cycle_step3 ev s n t tr).2.1.length := by
  have h := check_pending_fills_state s (snap_yes_low s) (snap_no_low s)
    (snap_ref_yes_int s) (snap_ref_no_int s) n t tr ev.pending_limits ev
  exact ⟨h.1, h.2.1, h.2.2.1, h.2.2.2.2.1, h.2.2.2.2.2.1, h.2.2.2.2.2.2.1,
    h.2.2.2.2.2.2.2⟩

theorem cycle_after4_state (ev : TriggerEvaluator) (s : Snapshot) (n t : Int) (tr : ℚ) :
    (cycle_after4 ev s n t tr).tick = ev.tick ∧
    (cycle_after4 ev s n t tr).params = ev.params ∧
    (cycle_after4 ev s n t tr).active_attempts = ev.active_attempts ∧
    (cycle_after4 ev s n t tr).total_pairs = ev.total_pairs ∧
    (cycle_after4 ev s n t tr).total_failed = ev.total_failed ∧
    (cycle_after4 ev s n t tr).max_concurrent = ev.max_concurrent ∧
    (cycle_after4 ev s n t tr).total_attempts =
      ev.total_attempts + (cycle_step3 ev s n t tr).2.1.length := by
  have h3 := cycle_after3_state ev s n t tr
  have hy := refresh_state s (snap_yes_refH s) (snap_no_refH s)
    (snap_ref_yes_int s) (snap_ref_no_int s) n t (cycle_step3 ev s n t tr).2.2
    (cycle_after3 ev s n t tr) Side.YES
  have hn := refresh_state s (snap_yes_refH s) (snap_no_refH s)
    (snap_ref_yes_int s) (snap_ref_no_int s) n t (cycle_step3 ev s n t tr).2.2
    (refresh_pending_for_side s (snap_yes_refH s) (snap_no_refH s)
      (snap_ref_yes_int s) (snap_ref_no_int s) n t (cycle_step3 ev s n t tr).2.2
      (cycle_after3 ev s n t tr) Side.YES) Side.NO
  unfold cycle_after4
  simp only [List.foldl]
  refine ⟨?_, ?_, ?_, ?_, ?_, ?_, ?_⟩
  · rw [hn.1, hy.1, h3.1]
  · rw [hn.2.1, hy.2.1, h3.2.1]
  · rw [hn.2.2.1, hy.2.2.1, h3.2.2.1]
  · rw [hn.2.2.2.2.2.1, hy.2.2.2.2.2.1, h3.2.2.2.1]
  · rw [hn.2.2.2.2.2.2.1, hy.2.2.2.2.2.2.1, h3.2.2.2.2.1]
  · rw [hn.2.2.2.2.2.2.2, hy.2.2.2.2.2.2.2, h3.2.2.2.2.2.1]
  · rw [hn.2.2.2.2.1, hy.2.2.2.2.1, h3.2.2.2.2.2.2]

theorem cycle_after5_state (ev : TriggerEvaluator) (s : Snapshot) (n t : Int) (tr : ℚ) :
    (cycle_after5 ev s n t tr).tick = ev.tick ∧
    (cycle_after5 ev s n t tr).params = ev.params ∧
    (cycle_after5 ev s n t tr).active_attempts = ev.active_attempts ∧
    (cycle_after5 ev s n t tr).total_pairs = ev.total_pairs ∧
    (cycle_after5 ev s n t tr).total_failed = ev.total_failed ∧
    (cycle_after5 ev s n t tr).max_concurrent = ev.max_concurrent ∧
    (cycle_after5 ev s n t tr).total_attempts =
      ev.total_attempts +
        ((cycle_step3 ev s n t tr).2.1.length + (cycle_step5 ev s n t tr).2.1.length) := by
  have h4 := cycle_after4_state ev s n t tr
  have h5 := same_cycle_fill_scan_state s (snap_yes_low s) (snap_no_low s)
    (snap_ref_yes_int s) (snap_ref_no_int s) n t tr
    (cycle_after4 ev s n t tr).pending_limits (cycle_after4 ev s n t tr)
  refine ⟨?_, ?_, ?_, ?_, ?_, ?_, ?_⟩
  · show (cycle_step5 ev s n t tr).1.tick = ev.tick
    rw [show (cycle_step5 ev s n t tr).1.tick =
      (cycle_after4 ev s n t tr).tick from h5.1, h4.1]
  · show (cycle_step5 ev s n t tr).1.params = ev.params
    rw [show (cycle_step5 ev s n t tr).1.params =
      (cycle_after4 ev s n t tr).params from h5.2.1, h4.2.1]
  · show (cycle_step5 ev s n t tr).1.active_attempts = ev.active_attempts
    rw [show (cycle_step5 ev s n t tr).1.active_attempts =
      (cycle_after4 ev s n t tr).active_attempts from h5.2.2.1, h4.2.2.1]
  · show (cycle_step5 ev s n t tr).1.total_pairs = ev.total_pairs
    rw [show (cycle_step5 ev s n t tr).1.total_pairs =
      (cycle_after4 ev s n t tr).total_pairs from h5.2.2.2.2.1, h4.2.2.2.1]
  · show (cycle_step5 ev s n t tr).1.total_failed = ev.total_failed
    rw [show (cycle_step5 ev s n t tr).1.total_failed =
      (cycle_after4 ev s n t tr).total_failed from h5.2.2.2.2.2.1, h4.2.2.2.2.1]
  · show (cycle_step5 ev s n t tr).1.max_concurrent = ev.max_concurrent
    rw [show (cycle_step5 ev s n t tr).1.max_concurrent =
      (cycle_after4 ev s n t tr).max_concurrent from h5.2.2.2.2.2.2.1, h4.2.2.2.2.2.1]
  · show (cycle_step5 ev s n t tr).1.total_attempts =
      ev.total_attempts +
        ((cycle_step3 ev s n t tr).2.1.length + (cycle_step5 ev s n t tr).2.1.length)
    have ha : (cycle_step5 ev s n t tr).1.total_attempts =
        (cycle_after4 ev s n t tr).total_attempts + (cycle_step5 ev s n t tr).2.1.length :=
      h5.2.2.2.2.2.2.2
    have hb := h4.2.2.2.2.2.2
    omega

theorem cycle_body_state (ev : TriggerEvaluator) (s : Snapshot) (n t : Int) (tr : ℚ) :
    (cycle_body ev s n t tr).1.tick = ev.tick ∧
    (cycle_body ev s n t tr).1.params = ev.params ∧
    (cycle_body ev s n t tr).1.total_failed = ev.total_failed ∧
    (cycle_body ev s n t tr).1.total_attempts =
      ev.total_attempts + (cycle_body ev s n t tr).2.1.length ∧
    (cycle_body ev s n t tr).1.total_pairs =
      ev.total_pairs + (cycle_body ev s n t tr).2.2.length ∧
    (cycle_body ev s n t tr).1.active_attempts.length + (cycle_body ev s n t tr).2.2.length =
      ev.active_attempts.length + (cycle_body ev s n t tr).2.1.length := by
  have h5 := cycle_after5_state ev s n t tr
  have h6 := pairing_sweep_shape s n t tr
    (cycle_before_pairing ev s n t tr).active_attempts (cycle_before_pairing ev s n t tr)
  have hbp_act : (cycle_before_pairing ev s n t tr).active_attempts =
      ev.active_attempts ++ cycle_new_attempts ev s n t tr := by
    show (cycle_after5 ev s n t tr).active_attempts ++ cycle_new_attempts ev s n t tr = _
    rw [h5.2.2.1]
  have hnew_len : (cycle_new_attempts ev s n t tr).length =
      (cycle_step3 ev s n t tr).2.1.length + (cycle_step5 ev s n t tr).2.1.length := by
    unfold cycle_new_attempts
    rw [reorder_length, List.length_append]
  refine ⟨?_, ?_, ?_, ?_, ?_, ?_⟩
  · show (cycle_step6 ev s n t tr).1.tick = ev.tick
    rw [show (cycle_step6 ev s n t tr).1.tick =
      (cycle_before_pairing ev s n t tr).tick from h6.2.2.2.2.1]
    exact h5.1
  · show (cycle_step6 ev s n t tr).1.params = ev.params
    rw [show (cycle_step6 ev s n t tr).1.params =
      (cycle_before_pairing ev s n t tr).params from h6.2.2.2.2.2.1]
    exact h5.2.1
  · show (cycle_step6 ev s n t tr).1.total_failed = ev.total_failed
    rw [show (cycle_step6 ev s n t tr).1.total_failed =
      (cycle_before_pairing ev s n t tr).total_failed from h6.2.2.2.1]
    exact h5.2.2.2.2.1
  · show (cycle_step6 ev s n t tr).1.total_attempts =
      ev.total_attempts + (cycle_new_attempts ev s n t tr).length
    rw [show (cycle_step6 ev s n t tr).1.total_attempts =
      (cycle_before_pairing ev s n t tr).total_attempts from h6.2.2.1]
    have hbp_total : (cycle_before_pairing ev s n t tr).total_attempts =
        ev.total_attempts +
          ((cycle_step3 ev s n t tr).2.1.length + (cycle_step5 ev s n t tr).2.1.length) :=
      h5.2.2.2.2.2.2
    omega
  · show (cycle_step6 ev s n t tr).1.total_pairs =
      ev.total_pairs + (cycle_step6 ev s n t tr).2.1.length
    have h61 : (cycle_step6 ev s n t tr).1.total_pairs =
        (cycle_before_pairing ev s n t tr).total_pairs +
          (cycle_step6 ev s n t tr).2.1.length :=
      h6.2.1
    have hbp : (cycle_before_pairing ev s n t tr).total_pairs = ev.total_pairs :=
      h5.2.2.2.1
    omega
  · show (cycle_step6 ev s n t tr).2.2.length + (cycle_step6 ev s n t tr).2.1.length =
      ev.active_attempts.length + (cycle_new_attempts ev s n t tr).length
    have h60 : (cycle_step6 ev s n t tr).2.1.length + (cycle_step6 ev s n t tr).2.2.length =
        (cycle_before_pairing ev s n t tr).active_attempts.length :=
      h6.1
    rw [hbp_act, List.length_append] at h60
    omega

/-! ## evaluate_cycle destructuring lemmas -/

theorem evaluate_cycle_of_invalid (ev : TriggerEvaluator) (s : Snapshot)
    (n t : Int) (tr : ℚ) (h : has_valid_orderbook s = false) :
    evaluate_cycle ev s n t tr = Except.ok (ev,
      { skipped := true
        skip_reason := "orderbook_empty"
        active_count := ev.active_attempts.length
        pending_limit_count := ev.pending_limits.length }) := by
  unfold evaluate_cycle evaluate_cycle_core
  rw [if_neg (by simp [h]), if_pos (by simp [h])]

theorem evaluate_cycle_ok_parts (ev : TriggerEvaluator) (s : Snapshot)
    (n t : Int) (tr : ℚ) (ev' : TriggerEvaluator) (r : CycleResult)
    (h : evaluate_cycle ev s n t tr = Except.ok (ev', r))
    (hv : has_valid_orderbook s = true) :
    r.new_attempts = cycle_new_attempts ev s n t tr ∧
    r.paired_attempts = (cycle_step6 ev s n t tr).2.1 ∧
    r.skipped = false ∧
    ∃ ev7 tracked,
      track_all s n t (cycle_body ev s n t tr).1.active_attempts
        (cycle_body ev s n t tr).1 = Except.ok (ev7, tracked) ∧
      ev'.total_attempts = ev7.total_attempts ∧
      ev'.total_pairs = ev7.total_pairs ∧
      ev'.total_failed = ev7.total_failed ∧
      ev'.active_attempts = tracked ∧
      ev'.tick = ev7.tick ∧
      ev'.params = ev7.params ∧
      ev'.pending_limits = ev7.pending_limits := by
  by_cases hw : has_valid_orderbook s = true ∧ ev.tick ≤ 0
  · rw [evaluate_cycle, if_pos hw] at h
    exact Except.noConfusion h
  · rw [evaluate_cycle, if_neg hw] at h
    rw [evaluate_cycle_core, if_neg (by simp [hv])] at h
    dsimp only at h
    cases htr : track_all s n t (cycle_body ev s n t tr).1.active_attempts
        (cycle_body ev s n t tr).1 with
    | error e =>
      rw [htr] at h
      exact Except.noConfusion h
    | ok out =>
      obtain ⟨ev7, tracked⟩ := out
      rw [htr] at h
      dsimp only at h
      simp only [Except.ok.injEq, Prod.mk.injEq] at h
      obtain ⟨hev, hr⟩ := h
      subst hev
      subst hr
      exact ⟨rfl, rfl, rfl, ev7, tracked, rfl, rfl, rfl, rfl, rfl, rfl, rfl, rfl⟩

/-! ## Snapshot boundedness lemmas -/

theorem price_field_ok_le (o : Option Int) (h : price_field_ok o = true) :
    ∀ v, o = some v → v ≤ 100 := by
  intro v hv
  rw [hv] at h
  simp only [price_field_ok, decide_eq_true_eq] at h
  exact h.2

theorem opp_low_ask_le_100 (s : Snapshot) (hb : snap_prices_bounded s = true)
    (side : Side) : ∀ v, opp_low_ask s side = some v → v ≤ 100 := by
  have hb' := hb
  unfold snap_prices_bounded at hb'
  simp only [Bool.and_eq_true] at hb'
  intro v hv
  unfold opp_low_ask at hv
  by_cases hs : (side == Side.YES) = true
  · rw [if_pos hs] at hv
    unfold pyOrOpt at hv
    cases hpl : s.yes_period_low_ask_points with
    | none =>
      rw [hpl] at hv
      dsimp only at hv
      exact price_field_ok_le _ hb'.1.1.1.1.1.1.2 v hv
    | some x =>
      rw [hpl] at hv
      dsimp only at hv
      by_cases hx : x = 0
      · rw [if_pos hx] at hv
        exact price_field_ok_le _ hb'.1.1.1.1.1.1.2 v hv
      · rw [if_neg hx] at hv
        have := price_field_ok_le _ hb'.1.1.1.2 x hpl
        rw [Option.some.injEq] at hv
        omega
  · rw [if_neg hs] at hv
    unfold pyOrOpt at hv
    cases hpl : s.no_period_low_ask_points with
    | none =>
      rw [hpl] at hv
      dsimp only at hv
      exact price_field_ok_le _ hb'.1.1.1.1.2 v hv
    | some x =>
      rw [hpl] at hv
      dsimp only at hv
      by_cases hx : x = 0
      · rw [if_pos hx] at hv
        exact price_field_ok_le _ hb'.1.1.1.1.2 v hv
      · rw [if_neg hx] at hv
        have := price_field_ok_le _ hb'.1.1.2 x hpl
        rw [Option.some.injEq] at hv
        omega

/-! ## Claim C1 — stop loss -/

/-- C1: the spec's stop-loss sweep does not exist in `evaluate_cycle`.
At the spec's own scenario-3 input — an active attempt with
`stop_loss_price_points = 46` and the first-leg bid dipped to 46 — the
stop-loss condition holds, yet the cycle leaves the attempt active with
no fail reason, pairs nothing and creates nothing. -/
theorem C1_stop_loss_missing :
    (pyOrOpt snapC1.yes_period_low_bid_points snapC1.yes_bid_points = some 46 ∧
     attC1.stop_loss_price_points = some 46 ∧
     evC1.active_attempts = [attC1]) ∧
    ((evaluate_cycle evC1 snapC1 2 20 790).toOption.map
       (fun p => p.1.active_attempts.map (fun a => (a.attempt_id, a.status, a.fail_reason)))
      = some [(1, AttemptStatus.ACTIVE, none)]) ∧
    ((evaluate_cycle evC1 snapC1 2 20 790).toOption.map
       (fun p => (p.2.paired_attempts.length, p.2.new_attempts.length)) = some (0, 0)) := by
  decide

/-! ## Claim C2 — totality of evaluate_cycle -/

/-- C2 counterexample: a type-valid snapshot (all fields present, bids
below asks) with an absurdly high NO-side book makes `evaluate_cycle`
raise: the closest-approach dict is indexed with a missing key when the
opposite ask sits at least 9999 points above the trigger
(trigger_evaluator.py line 396), modelled here as the error result —
even though the orderbook validates and the tick is positive. -/
theorem C2_counterexample :
    has_valid_orderbook snapC2 = true ∧ (0 : Int) < evUnit.tick ∧
    (evaluate_cycle evUnit snapC2 1 10 800).isOk = false := by
  decide

/-- C2 amended: `evaluate_cycle` returns a `CycleResult` normally for
every snapshot whose price fields lie in the real point range [0, 100]
(so the closest-approach distance stays below the 9999 sentinel), given
a positive tick and nonnegative opposite triggers on the active
attempts (true of every attempt the evaluator itself creates); invalid
snapshots are reported through the skipped flag. -/
theorem C2_eval_total (ev : TriggerEvaluator) (s : Snapshot) (n t : Int) (tr : ℚ)
    (htick : 0 < ev.tick)
    (hb : snap_prices_bounded s = true)
    (hact : ∀ a ∈ ev.active_attempts, 0 ≤ a.opposite_trigger_points) :
    (evaluate_cycle ev s n t tr).isOk = true ∧
    (has_valid_orderbook s = false →
      (evaluate_cycle ev s n t tr).toOption.map (fun p => p.2.skipped) = some true) := by
  by_cases hv : has_valid_orderbook s = true
  · have hmem : ∀ a ∈ (cycle_body ev s n t tr).1.active_attempts,
        (∀ v, opp_low_ask s a.opposite_side = some v → v ≤ 100) ∧
        0 ≤ a.opposite_trigger_points := by
      intro a ha
      refine ⟨opp_low_ask_le_100 s hb a.opposite_side, ?_⟩
      have ha' : a ∈ (pairing_sweep s n t tr
          (cycle_before_pairing ev s n t tr).active_attempts
          (cycle_before_pairing ev s n t tr)).2.2 := ha
      have hin := pairing_sweep_still_mem s n t tr _ _ a ha'
      have hin' : a ∈ (cycle_after5 ev s n t tr).active_attempts ++
          cycle_new_attempts ev s n t tr := hin
      rcases List.mem_append.mp hin' with hpre | hnew
      · rw [(cycle_after5_state ev s n t tr).2.2.1] at hpre
        exact hact a hpre
      · have hnew' := reorder_mem _ _ _ a hnew
        rcases List.mem_append.mp hnew' with h3 | h5
        · have hc := (check_pending_fills_created s (snap_yes_low s) (snap_no_low s)
            (snap_ref_yes_int s) (snap_ref_no_int s) n t tr
            ev.pending_limits ev a h3).2.2.2
          omega
        · have hc := (same_cycle_fill_scan_created s (snap_yes_low s) (snap_no_low s)
            (snap_ref_yes_int s) (snap_ref_no_int s) n t tr
            (cycle_after4 ev s n t tr).pending_limits (cycle_after4 ev s n t tr)
            a h5).2.2.2
          rw [(cycle_after4_state ev s n t tr).1] at hc
          omega
    obtain ⟨ev2, l2, ho, _⟩ := track_all_ok s n t
      (cycle_body ev s n t tr).1.active_attempts (cycle_body ev s n t tr).1 hmem
    constructor
    · unfold evaluate_cycle evaluate_cycle_core
      rw [if_neg (fun hc => absurd hc.2 (not_le.mpr htick)), if_neg (by simp [hv])]
      dsimp only
      rw [ho]
      rfl
    · intro hf
      rw [hv] at hf
      exact Bool.noConfusion hf
  · have hfv : has_valid_orderbook s = false := by
      revert hv; cases has_valid_orderbook s <;> simp
    rw [evaluate_cycle_of_invalid ev s n t tr hfv]
    exact ⟨rfl, fun _ => rfl⟩

/-- Witness for the amended C2 at the scenario-1 snapshot. -/
theorem C2_eval_total_witness :
    (evaluate_cycle evUnit snap1 1 10 800).isOk = true :=
  (C2_eval_total evUnit snap1 1 10 800 (by decide) (by decide) (by decide)).1

/-! ## Claim C8 — invalid snapshot frame -/

/-- C8: an invalid snapshot short-circuits the cycle: the result is
skipped with reason and the current counts, no attempts are created,
paired or failed, and the evaluator state comes back unchanged. -/
theorem C8_invalid_snapshot_skips (ev : TriggerEvaluator) (s : Snapshot)
    (n t : Int) (tr : ℚ) (h : has_valid_orderbook s = false) :
    evaluate_cycle ev s n t tr = .ok (ev,
      { skipped := true
        skip_reason := "orderbook_empty"
        active_count := ev.active_attempts.length
        pending_limit_count := ev.pending_limits.length }) := by
  unfold evaluate_cycle evaluate_cycle_core
  rw [if_neg (by simp [h]), if_pos (by simp [h])]

/-- Witness for C8 at a snapshot with a missing NO bid. -/
theorem C8_invalid_snapshot_skips_witness :
    evaluate_cycle evUnit snapInvalid 3 30 770 = .ok (evUnit,
      { skipped := true
        skip_reason := "orderbook_empty"
        active_count := evUnit.active_attempts.length
        pending_limit_count := evUnit.pending_limits.length }) :=
  C8_invalid_snapshot_skips evUnit snapInvalid 3 30 770 (by decide)

/-! ## Claim C9 — cycle schedule -/

/-- C9 counterexample: with 5 seconds remaining and a 10 second
interval, FIXED_INTERVAL plans 1 cycle, not the claimed
`⌊remaining / interval⌋ = 0`. -/
theorem C9_counterexample :
    (calculate_schedule SamplingMode.FIXED_INTERVAL 10 90 5).2 = 1 ∧
    ⌊(5 : ℚ) / 10⌋ = 0 := by
  have hfl : ⌊(5 : ℚ) / 10⌋ = 0 := by
    rw [Int.floor_eq_zero_iff]
    constructor <;> norm_num
  refine ⟨?_, hfl⟩
  unfold calculate_schedule pyTrunc
  rw [if_pos (by norm_num)]
  rw [hfl]
  simp

/-- C9 amended: FIXED_INTERVAL keeps the configured interval and plans
`max(1, ⌊remaining / interval⌋)` cycles (the source imposes a minimum
of one); FIXED_COUNT keeps the configured count and sets the interval
to `max(1 s, remaining / count)`, exactly as claimed. -/
theorem C9_schedule (interval : ℚ) (count : Int) (remaining : ℚ)
    (h1 : 0 < interval) (h2 : 0 < remaining) :
    calculate_schedule SamplingMode.FIXED_INTERVAL interval count remaining =
      (interval, max 1 ⌊remaining / interval⌋) ∧
    calculate_schedule SamplingMode.FIXED_COUNT interval count remaining =
      (max 1 (remaining / (count : ℚ)), count) := by
  refine ⟨?_, rfl⟩
  unfold calculate_schedule pyTrunc
  rw [if_pos (le_of_lt (div_pos h2 h1))]

/-- Witness for C9 at a 10 second interval and 800 seconds remaining. -/
theorem C9_schedule_witness :
    calculate_schedule SamplingMode.FIXED_INTERVAL 10 90 800 =
      (10, max 1 ⌊(800 : ℚ) / 10⌋) ∧
    calculate_schedule SamplingMode.FIXED_COUNT 10 90 800 =
      (max 1 ((800 : ℚ) / (90 : Int)), 90) :=
  C9_schedule 10 90 800 (by decide) (by decide)

/-! ## Pending-bound propagation lemmas -/

theorem foldl_dictPop_subset {κ α : Type} [BEq κ] :
    ∀ (l : List κ) (d : List (κ × α)) (q : κ × α),
      q ∈ l.foldl (fun d sd => dictPop d sd) d → q ∈ d := by
  intro l
  induction l with
  | nil => intro d q h; exact h
  | cons k rest ih =>
    intro d q h
    exact dictPop_subset _ _ _ (ih (dictPop d k) q h)

theorem cycle_after4_pendings_ge (ev : TriggerEvaluator) (s : Snapshot)
    (n t : Int) (tr : ℚ) (hp : pendings_ge_tick ev.tick ev.pending_limits) :
    pendings_ge_tick ev.tick (cycle_after4 ev s n t tr).pending_limits := by
  have h3s := check_pending_fills_state s (snap_yes_low s) (snap_no_low s)
    (snap_ref_yes_int s) (snap_ref_no_int s) n t tr ev.pending_limits ev
  have h3p : pendings_ge_tick ev.tick (cycle_after3 ev s n t tr).pending_limits := by
    intro q hq
    have hq' : q ∈ (cycle_step3 ev s n t tr).2.2.foldl (fun d sd => dictPop d sd)
        (cycle_step3 ev s n t tr).1.pending_limits := hq
    have hmem := foldl_dictPop_subset _ _ q hq'
    have hpe : (cycle_step3 ev s n t tr).1.pending_limits = ev.pending_limits :=
      h3s.2.2.2.1
    rw [hpe] at hmem
    exact hp q hmem
  have h3t : (cycle_after3 ev s n t tr).tick = ev.tick :=
    (cycle_after3_state ev s n t tr).1
  have hy := refresh_pendings_ge s (snap_yes_refH s) (snap_no_refH s)
    (snap_ref_yes_int s) (snap_ref_no_int s) n t (cycle_step3 ev s n t tr).2.2
    (cycle_after3 ev s n t tr) Side.YES (by rw [h3t]; exact h3p)
  have hyt : (refresh_pending_for_side s (snap_yes_refH s) (snap_no_refH s)
      (snap_ref_yes_int s) (snap_ref_no_int s) n t (cycle_step3 ev s n t tr).2.2
      (cycle_after3 ev s n t tr) Side.YES).tick = (cycle_after3 ev s n t tr).tick :=
    (refresh_state s (snap_yes_refH s) (snap_no_refH s)
      (snap_ref_yes_int s) (snap_ref_no_int s) n t (cycle_step3 ev s n t tr).2.2
      (cycle_after3 ev s n t tr) Side.YES).1
  have hn := refresh_pendings_ge s (snap_yes_refH s) (snap_no_refH s)
    (snap_ref_yes_int s) (snap_ref_no_int s) n t (cycle_step3 ev s n t tr).2.2
    (refresh_pending_for_side s (snap_yes_refH s) (snap_no_refH s)
      (snap_ref_yes_int s) (snap_ref_no_int s) n t (cycle_step3 ev s n t tr).2.2
      (cycle_after3 ev s n t tr) Side.YES) Side.NO (by rw [hyt]; exact hy)
  intro q hq
  have hq' : q ∈ (refresh_pending_for_side s (snap_yes_refH s) (snap_no_refH s)
      (snap_ref_yes_int s) (snap_ref_no_int s) n t (cycle_step3 ev s n t tr).2.2
      (refresh_pending_for_side s (snap_yes_refH s) (snap_no_refH s)
        (snap_ref_yes_int s) (snap_ref_no_int s) n t (cycle_step3 ev s n t tr).2.2
        (cycle_after3 ev s n t tr) Side.YES) Side.NO).pending_limits := hq
  have := hn q hq'
  rw [hyt, h3t] at this
  exact this

/-! ## Claim C5 — opposite_max formula -/

/-- C5 counterexample: on a five-point-tick market with pair cap 97 a
YES attempt at P1 = 95 gets `floor_to_tick(97 − 95, 5) = 0`, bumped up
to one tick, so `opposite_max = 5` and
`P1 + opposite_max = 100 > 97 = pair_cap` — the second conjunct of the
claim fails on the code. -/
theorem C5_counterexample :
    ((evaluate_cycle evT5 snapC5 1 10 800).toOption.map
       (fun p => p.2.new_attempts.map (fun a => (a.P1_points, a.opposite_max_points)))) =
      some [(95, 5)] ∧
    evT5.params.pair_cap_points = 97 ∧
    ¬ ((95 : Int) + 5 ≤ 97) := by
  decide

/-- C5 amended: every attempt created by `evaluate_cycle` satisfies
`opposite_max = clamp(floor_to_tick(pair_cap − P1), tick, 100)` (the
upper clamp being vacuous for valid parameters), and
`P1 + opposite_max ≤ pair_cap` holds whenever
`floor_to_tick(pair_cap − P1) ≥ tick`; in the impossible-pair case the
source bumps `opposite_max` up to one tick and the sum exceeds the
cap. -/
theorem C5_opposite_max_formula (ev : TriggerEvaluator) (s : Snapshot)
    (n t : Int) (tr : ℚ) (ev' : TriggerEvaluator) (r : CycleResult)
    (h : evaluate_cycle ev s n t tr = Except.ok (ev', r))
    (htick : 0 < ev.tick) (hdelta : 1 ≤ ev.params.delta_points)
    (hpend : pendings_ge_tick ev.tick ev.pending_limits) :
    ∀ a ∈ r.new_attempts,
      a.opposite_max_points =
        max ev.tick
          (min (round_to_tick_int (ev.params.pair_cap_points - a.P1_points) ev.tick) 100) ∧
      (ev.tick ≤ round_to_tick_int (ev.params.pair_cap_points - a.P1_points) ev.tick →
        a.P1_points + a.opposite_max_points ≤ ev.params.pair_cap_points) := by
  by_cases hv : has_valid_orderbook s = true
  · intro a ha
    have hcap : ev.params.pair_cap_points = 100 - ev.params.delta_points := rfl
    have hp := (evaluate_cycle_ok_parts ev s n t tr ev' r h hv).1
    rw [hp] at ha
    have hnew' := reorder_mem _ _ _ a ha
    have hx := round_to_tick_int_le (ev.params.pair_cap_points - a.P1_points) ev.tick htick
    rcases List.mem_append.mp hnew' with h3 | h5
    · have hc := check_pending_fills_created s (snap_yes_low s) (snap_no_low s)
        (snap_ref_yes_int s) (snap_ref_no_int s) n t tr ev.pending_limits ev a h3
      obtain ⟨⟨p, hpmem, hP1⟩, hmax, _, _⟩ := hc
      have hP1ge : ev.tick ≤ a.P1_points := by rw [hP1]; exact hpend p hpmem
      constructor
      · rw [hmax, min_eq_left (by omega)]
      · intro hnb
        rw [hmax, max_eq_right hnb]
        omega
    · have hc := same_cycle_fill_scan_created s (snap_yes_low s) (snap_no_low s)
        (snap_ref_yes_int s) (snap_ref_no_int s) n t tr
        (cycle_after4 ev s n t tr).pending_limits (cycle_after4 ev s n t tr) a h5
      have h4s := cycle_after4_state ev s n t tr
      obtain ⟨⟨p, hpmem, hP1⟩, hmax, _, _⟩ := hc
      rw [h4s.1, h4s.2.1] at hmax
      have hpend4 := cycle_after4_pendings_ge ev s n t tr hpend
      have hP1ge : ev.tick ≤ a.P1_points := by rw [hP1]; exact hpend4 p hpmem
      constructor
      · rw [hmax, min_eq_left (by omega)]
      · intro hnb
        rw [hmax, max_eq_right hnb]
        omega
  · have hfv : has_valid_orderbook s = false := by
      revert hv; cases has_valid_orderbook s <;> simp
    rw [evaluate_cycle_of_invalid ev s n t tr hfv] at h
    simp only [Except.ok.injEq, Prod.mk.injEq] at h
    obtain ⟨_, hr⟩ := h
    intro a ha
    rw [← hr] at ha
    simp at ha

/-- Witness for the amended C5 at the scenario-1 attempt
(P1 = 49, opposite max 46 = 95 − 49, tick 1). -/
theorem C5_opposite_max_formula_witness :
    attFirst.opposite_max_points =
      max evUnit.tick
        (min (round_to_tick_int (evUnit.params.pair_cap_points - attFirst.P1_points)
          evUnit.tick) 100) ∧
    (evUnit.tick ≤
        round_to_tick_int (evUnit.params.pair_cap_points - attFirst.P1_points) evUnit.tick →
      attFirst.P1_points + attFirst.opposite_max_points ≤ evUnit.params.pair_cap_points) :=
  C5_opposite_max_formula evUnit snap1 1 10 800 run1.1 run1.2 (by rfl)
    (by decide) (by decide) (by intro q hq; cases hq) attFirst (by decide)

/-! ## Claim C4 — paired fill model -/

/-- C4: every attempt `evaluate_cycle` transitions to paired carries
the limit-order fill model: the actual opposite price is the attempt's
own opposite trigger, pair cost is `P1 + actual_opposite_price`, pair
profit is `100 − pair_cost` and the closest approach is finalized at
0. -/
theorem C4_paired_fill_model (ev : TriggerEvaluator) (s : Snapshot)
    (n t : Int) (tr : ℚ) (ev' : TriggerEvaluator) (r : CycleResult)
    (h : evaluate_cycle ev s n t tr = Except.ok (ev', r)) :
    ∀ a ∈ r.paired_attempts,
      a.actual_opposite_price = some a.opposite_trigger_points ∧
      a.pair_cost_points = some (a.P1_points + a.opposite_trigger_points) ∧
      a.pair_profit_points = some (100 - (a.P1_points + a.opposite_trigger_points)) ∧
      a.closest_approach_points = some 0 := by
  intro a ha
  by_cases hv : has_valid_orderbook s = true
  · have hp := (evaluate_cycle_ok_parts ev s n t tr ev' r h hv).2.1
    rw [hp] at ha
    have ha' : a ∈ (pairing_sweep s n t tr
        (cycle_before_pairing ev s n t tr).active_attempts
        (cycle_before_pairing ev s n t tr)).2.1 := ha
    have hs := pairing_sweep_paired_spec s n t tr _ _ a ha'
    exact ⟨hs.2.1, hs.2.2.1, hs.2.2.2.1, hs.2.2.2.2⟩
  · have hfv : has_valid_orderbook s = false := by
      revert hv; cases has_valid_orderbook s <;> simp
    rw [evaluate_cycle_of_invalid ev s n t tr hfv] at h
    simp only [Except.ok.injEq, Prod.mk.injEq] at h
    obtain ⟨_, hr⟩ := h
    rw [← hr] at ha
    simp at ha

/-- Witness for C4 at the scenario-1 paired attempt. -/
theorem C4_paired_fill_model_witness :
    attPaired.actual_opposite_price = some attPaired.opposite_trigger_points ∧
    attPaired.pair_cost_points =
      some (attPaired.P1_points + attPaired.opposite_trigger_points) ∧
    attPaired.pair_profit_points =
      some (100 - (attPaired.P1_points + attPaired.opposite_trigger_points)) ∧
    attPaired.closest_approach_points = some 0 :=
  C4_paired_fill_model st1 snap2 2 20 790 run2.1 run2.2 (by rfl) attPaired (by decide)

/-! ## Claim C6 — pair-constraint profit -/

/-- C6 counterexample: on a five-point-tick market with delta = 3 the
bumped opposite trigger lets the C5 attempt pair at cost 100, so its
profit 0 is below delta — invariant I3 fails on the code. -/
theorem C6_counterexample :
    ((evaluate_cycle st5 snapC6 2 20 790).toOption.map
       (fun p => p.2.paired_attempts.map
         (fun a => (a.pair_profit_points, a.delta_points)))) =
      some [(some 0, some 3)] ∧
    ¬ ((3 : Int) ≤ 0) := by
  decide

/-- C6 amended: pair profit equals `100 − (P1 + opposite_trigger)` for
every paired attempt, and is at least delta exactly for attempts whose
trigger respects the pair constraint `P1 + opposite_trigger ≤ pair_cap`
— which holds by construction for every attempt created without the
impossible-pair bump (in particular always when
`floor_to_tick(pair_cap − P1) ≥ tick`, e.g. on one-point-tick
markets). -/
theorem C6_pair_constraint (ev : TriggerEvaluator) (s : Snapshot)
    (n t : Int) (tr : ℚ) (ev' : TriggerEvaluator) (r : CycleResult)
    (h : evaluate_cycle ev s n t tr = Except.ok (ev', r))
    (htick : 0 < ev.tick) :
    (∀ a ∈ r.new_attempts,
       ev.tick ≤ round_to_tick_int (ev.params.pair_cap_points - a.P1_points) ev.tick →
       a.P1_points + a.opposite_trigger_points ≤ ev.params.pair_cap_points) ∧
    (∀ a ∈ r.paired_attempts,
       a.P1_points + a.opposite_trigger_points ≤ ev.params.pair_cap_points →
       a.pair_profit_points = some (100 - (a.P1_points + a.opposite_trigger_points)) ∧
       ev.params.delta_points ≤ 100 - (a.P1_points + a.opposite_trigger_points)) := by
  by_cases hv : has_valid_orderbook s = true
  · constructor
    · intro a ha hnb
      have hp := (evaluate_cycle_ok_parts ev s n t tr ev' r h hv).1
      rw [hp] at ha
      have hnew' := reorder_mem _ _ _ a ha
      rcases List.mem_append.mp hnew' with h3 | h5
      · have hc := check_pending_fills_created s (snap_yes_low s) (snap_no_low s)
          (snap_ref_yes_int s) (snap_ref_no_int s) n t tr ev.pending_limits ev a h3
        have hmax := hc.2.1
        have htle := hc.2.2.1
        rw [hmax, max_eq_right hnb] at htle
        have hle := round_to_tick_int_le (ev.params.pair_cap_points - a.P1_points)
          ev.tick htick
        omega
      · have hc := same_cycle_fill_scan_created s (snap_yes_low s) (snap_no_low s)
          (snap_ref_yes_int s) (snap_ref_no_int s) n t tr
          (cycle_after4 ev s n t tr).pending_limits (cycle_after4 ev s n t tr) a h5
        have h4s := cycle_after4_state ev s n t tr
        have hmax := hc.2.1
        rw [h4s.1, h4s.2.1] at hmax
        have htle := hc.2.2.1
        rw [hmax, max_eq_right hnb] at htle
        have hle := round_to_tick_int_le (ev.params.pair_cap_points - a.P1_points)
          ev.tick htick
        omega
    · intro a ha hcap
      have hp := (evaluate_cycle_ok_parts ev s n t tr ev' r h hv).2.1
      rw [hp] at ha
      have ha' : a ∈ (pairing_sweep s n t tr
          (cycle_before_pairing ev s n t tr).active_attempts
          (cycle_before_pairing ev s n t tr)).2.1 := ha
      have hs := pairing_sweep_paired_spec s n t tr _ _ a ha'
      refine ⟨hs.2.2.2.1, ?_⟩
      have : ev.params.pair_cap_points = 100 - ev.params.delta_points := rfl
      omega
  · have hfv : has_valid_orderbook s = false := by
      revert hv; cases has_valid_orderbook s <;> simp
    rw [evaluate_cycle_of_invalid ev s n t tr hfv] at h
    simp only [Except.ok.injEq, Prod.mk.injEq] at h
    obtain ⟨_, hr⟩ := h
    constructor <;> intro a ha <;> rw [← hr] at ha <;> simp at ha

/-- Witness for the amended C6 at the scenario-1 paired attempt
(profit 5 = delta on the unit market). -/
theorem C6_pair_constraint_witness :
    attPaired.pair_profit_points =
      some (100 - (attPaired.P1_points + attPaired.opposite_trigger_points)) ∧
    st1.params.delta_points ≤ 100 - (attPaired.P1_points + attPaired.opposite_trigger_points) :=
  (C6_pair_constraint st1 snap2 2 20 790 run2.1 run2.2 (by rfl) (by decide)).2
    attPaired (by decide) (by decide)

/-! ## Claim C7 — simultaneous-fill ordering -/

/-- C7 counterexample: after the YES limit fills in cycle 1 and is
re-placed in cycle 2, the pending dict is ordered NO before YES; when
both sides then fill simultaneously in cycle 3 at equal distance 0, the
attempts are emitted NO first — the claimed YES-first tie-break does
not hold. -/
theorem C7_counterexample :
    ((evaluate_cycle stC7b snapC7c 3 30 770).toOption.map
       (fun p => p.2.new_attempts.map (fun a => a.first_leg_side))) =
      some [Side.NO, Side.YES] ∧
    ((evaluate_cycle stC7b snapC7c 3 30 770).toOption.map
       (fun p => p.2.new_attempts.map
         (fun a => fill_dist (snap_yes_low snapC7c) (snap_no_low snapC7c) a))) =
      some [0, 0] := by
  decide

/-- C7 amended: when one cycle creates exactly two attempts they are
ordered by decreasing distance below trigger; a tie preserves the order
in which the fills were detected (the pending-dict iteration order),
which is YES-first only when the YES entry precedes NO there. -/
theorem C7_tie_break (ev : TriggerEvaluator) (s : Snapshot) (n t : Int) (tr : ℚ)
    (ev' : TriggerEvaluator) (r : CycleResult)
    (h : evaluate_cycle ev s n t tr = Except.ok (ev', r)) (a b : Attempt)
    (hab : r.new_attempts = [a, b]) :
    fill_dist (snap_yes_low s) (snap_no_low s) b ≤
      fill_dist (snap_yes_low s) (snap_no_low s) a := by
  by_cases hv : has_valid_orderbook s = true
  · have hp := (evaluate_cycle_ok_parts ev s n t tr ev' r h hv).1
    rw [hp] at hab
    exact reorder_sorted _ _ _ a b hab
  · have hfv : has_valid_orderbook s = false := by
      revert hv; cases has_valid_orderbook s <;> simp
    rw [evaluate_cycle_of_invalid ev s n t tr hfv] at h
    simp only [Except.ok.injEq, Prod.mk.injEq] at h
    obtain ⟨_, hr⟩ := h
    rw [← hr] at hab
    simp at hab

/-- Witness for the amended C7: in the witness cycle the NO attempt
(distance 1) is emitted before the YES attempt (distance 0). -/
theorem C7_tie_break_witness :
    fill_dist (snap_yes_low snapC7w) (snap_no_low snapC7w) attC7w1 ≤
      fill_dist (snap_yes_low snapC7w) (snap_no_low snapC7w) attC7w0 :=
  C7_tie_break evUnit snapC7w 1 10 800 runC7w.1 runC7w.2 (by rfl)
    attC7w0 attC7w1 (by decide)

/-! ## First-leg firing-condition lemmas -/

theorem create_attempt_side (ev : TriggerEvaluator) (p : PendingLimit)
    (ry rn n t : Int) (tr : ℚ) (s : Snapshot) (cf : Int) :
    (create_attempt_from_pending ev p ry rn n t tr s cf).2.first_leg_side =
      p.side := rfl

theorem reorder_any (yl nl : Option Int) (l : List Attempt)
    (f : Attempt → Bool) :
    (reorder_simultaneous yl nl l).any f = l.any f := by
  unfold reorder_simultaneous
  split
  · split
    · simp only [List.any_cons, List.any_nil, Bool.or_false]
      exact Bool.or_comm _ _
    · rfl
  · rfl

theorem scan_any_side (s : Snapshot) (yl nl : Option Int) (ry rn n t : Int)
    (tr : ℚ) (sd : Side) :
    ∀ (items : List (Side × PendingLimit)) (ev : TriggerEvaluator),
      ((same_cycle_fill_scan s yl nl ry rn n t tr items ev).2.1.any
          (fun a => a.first_leg_side == sd)) =
        items.any (fun p => (p.2.side == sd) &&
          fillHit (side_low yl nl p.1) p.2.limit_price_points) := by
  intro items
  induction items with
  | nil => intro ev; rfl
  | cons hd rest ih =>
    intro ev
    obtain ⟨side, pending⟩ := hd
    simp only [same_cycle_fill_scan]
    split
    · rename_i hfill
      dsimp only
      simp only [List.any_cons]
      rw [ih, create_attempt_side, hfill, Bool.and_true]
    · rename_i hfill
      rw [ih]
      simp only [List.any_cons]
      rw [Bool.not_eq_true] at hfill
      rw [hfill, Bool.and_false, Bool.false_or]

theorem same_cycle_fill_scan_side (s : Snapshot) (yl nl : Option Int)
    (ry rn n t : Int) (tr : ℚ) :
    ∀ (items : List (Side × PendingLimit)) (ev : TriggerEvaluator),
      ∀ a ∈ (same_cycle_fill_scan s yl nl ry rn n t tr items ev).2.1,
        ∃ p ∈ items, a.P1_points = p.2.limit_price_points ∧
          a.first_leg_side = p.2.side := by
  intro items
  induction items with
  | nil => intro ev a ha; simp [same_cycle_fill_scan] at ha
  | cons hd rest ih =>
    intro ev a ha
    obtain ⟨side, pending⟩ := hd
    simp only [same_cycle_fill_scan] at ha
    split at ha
    · rcases List.mem_cons.mp ha with rfl | ha2
      · exact ⟨(side, pending), List.mem_cons_self _ _,
          create_attempt_P1 ev pending ry rn n t tr s _,
          create_attempt_side ev pending ry rn n t tr s _⟩
      · obtain ⟨p, hp, h1, h2⟩ := ih _ a ha2
        exact ⟨p, List.mem_cons_of_mem _ hp, h1, h2⟩
    · obtain ⟨p, hp, h1, h2⟩ := ih ev a ha
      exact ⟨p, List.mem_cons_of_mem _ hp, h1, h2⟩

/-! ## Claim C3 — first-leg trigger formula -/

/-- C3 counterexample: on `snapC3` the spec-side YES trigger
`clamp_trigger(floor_to_tick(100 + S0 − no_ask), tick)` is 49, the YES
period-low ask 46 has touched it, and 49 is strictly below the pair cap
95 — so the claim says the YES side fires — yet the cycle creates no
attempt at all (the code's maker limit `min(yes_ref − S0, yes_ask −
maker_buffer) = 45` was never touched). -/
theorem C3_counterexample :
    spec_side_trigger psUnit.S0_points (pyOrZero snapC3.no_ask_points)
      evUnit.tick = 49 ∧
    fillHit (snap_yes_low snapC3)
      (spec_side_trigger psUnit.S0_points (pyOrZero snapC3.no_ask_points)
        evUnit.tick) = true ∧
    spec_side_trigger psUnit.S0_points (pyOrZero snapC3.no_ask_points)
      evUnit.tick < psUnit.pair_cap_points ∧
    ((evaluate_cycle evUnit snapC3 1 10 800).toOption.map
      (fun p => p.2.new_attempts.isEmpty)) = some true := by
  decide

/-- C3 amended: in a cycle that starts with no carried-over pending
limits, each side's first-leg entry level is the maker limit
`clamp(floor_to_tick(min(own_ref − S0, own_ask − maker_buffer)), tick, 99)`
(not the spec's `100 + S0 − opposite_ask` formula), a side fires exactly
when that limit is strictly below the pair cap and the side's own
period-low ask (falling back to the current ask) has come down to it,
and every created attempt's `P1` equals that maker limit. -/
theorem C3_maker_limit_fire (ev : TriggerEvaluator) (s : Snapshot)
    (n t : Int) (tr : ℚ) (ev' : TriggerEvaluator) (r : CycleResult)
    (hok : evaluate_cycle ev s n t tr = Except.ok (ev', r))
    (hv : has_valid_orderbook s = true)
    (hp : ev.pending_limits = []) :
    ((r.new_attempts.any (fun a => a.first_leg_side == Side.YES)) =
      (decide (maker_limit ev s Side.YES < ev.params.pair_cap_points) &&
        fillHit (snap_yes_low s) (maker_limit ev s Side.YES))) ∧
    ((r.new_attempts.any (fun a => a.first_leg_side == Side.NO)) =
      (decide (maker_limit ev s Side.NO < ev.params.pair_cap_points) &&
        fillHit (snap_no_low s) (maker_limit ev s Side.NO))) ∧
    (∀ a ∈ r.new_attempts, a.first_leg_side = Side.YES →
      a.P1_points = maker_limit ev s Side.YES) ∧
    (∀ a ∈ r.new_attempts, a.first_leg_side = Side.NO →
      a.P1_points = maker_limit ev s Side.NO) := by
  have h3 : cycle_step3 ev s n t tr = (ev, [], []) := by
    unfold cycle_step3
    rw [hp]
    rfl
  have ha3 : cycle_after3 ev s n t tr = ev := by
    unfold cycle_after3
    rw [h3]
    rfl
  have ha4 : cycle_after4 ev s n t tr =
      refresh_pending_for_side s (snap_yes_refH s) (snap_no_refH s)
        (snap_ref_yes_int s) (snap_ref_no_int s) n t []
        (refresh_pending_for_side s (snap_yes_refH s) (snap_no_refH s)
          (snap_ref_yes_int s) (snap_ref_no_int s) n t [] ev Side.YES)
        Side.NO := by
    unfold cycle_after4
    rw [h3, ha3]
    rfl
  have hY : refresh_pending_for_side s (snap_yes_refH s) (snap_no_refH s)
      (snap_ref_yes_int s) (snap_ref_no_int s) n t [] ev Side.YES =
      (if ev.params.pair_cap_points ≤ maker_limit ev s Side.YES then
        { ev with pending_limits := dictPop ev.pending_limits Side.YES }
      else
        { ev with pending_limits := dictSet ev.pending_limits Side.YES (posted_limit Side.YES (maker_limit ev s Side.YES) (pyOrZero s.yes_ask_points) (snap_ref_yes_int s) (snap_ref_no_int s) n t) }) := rfl
  have hN : ∀ d : List (Side × PendingLimit),
      refresh_pending_for_side s (snap_yes_refH s) (snap_no_refH s)
        (snap_ref_yes_int s) (snap_ref_no_int s) n t []
        { ev with pending_limits := d } Side.NO =
      (if ev.params.pair_cap_points ≤ maker_limit ev s Side.NO then
        { ev with pending_limits := dictPop d Side.NO }
      else
        { ev with pending_limits := dictSet d Side.NO (posted_limit Side.NO (maker_limit ev s Side.NO) (pyOrZero s.no_ask_points) (snap_ref_yes_int s) (snap_ref_no_int s) n t) }) := fun d => rfl
  have hnew := (evaluate_cycle_ok_parts ev s n t tr ev' r hok hv).1
  have hlist : cycle_new_attempts ev s n t tr =
      reorder_simultaneous (snap_yes_low s) (snap_no_low s)
        (cycle_step5 ev s n t tr).2.1 := by
    unfold cycle_new_attempts
    rw [h3]
    rfl
  by_cases hcY : ev.params.pair_cap_points ≤ maker_limit ev s Side.YES
  · by_cases hcN : ev.params.pair_cap_points ≤ maker_limit ev s Side.NO
    · have h4 : cycle_after4 ev s n t tr = { ev with pending_limits := [] } := by
        rw [ha4, hY, if_pos hcY, hp, hN, if_pos hcN]
        rfl
      refine ⟨?_, ?_, ?_, ?_⟩
      · rw [hnew, hlist, reorder_any]
        unfold cycle_step5
        rw [h4, scan_any_side, decide_eq_false (not_lt.mpr hcY), Bool.false_and]
        rfl
      · rw [hnew, hlist, reorder_any]
        unfold cycle_step5
        rw [h4, scan_any_side, decide_eq_false (not_lt.mpr hcN), Bool.false_and]
        rfl
      · intro a ha hside
        rw [hnew, hlist] at ha
        have ham := reorder_mem _ _ _ a ha
        unfold cycle_step5 at ham
        rw [h4] at ham
        exact absurd (show a ∈ ([] : List Attempt) from ham) (List.not_mem_nil a)
      · intro a ha hside
        rw [hnew, hlist] at ha
        have ham := reorder_mem _ _ _ a ha
        unfold cycle_step5 at ham
        rw [h4] at ham
        exact absurd (show a ∈ ([] : List Attempt) from ham) (List.not_mem_nil a)
    · have h4 : cycle_after4 ev s n t tr = { ev with pending_limits := [(Side.NO, posted_limit Side.NO (maker_limit ev s Side.NO) (pyOrZero s.no_ask_points) (snap_ref_yes_int s) (snap_ref_no_int s) n t)] } := by
        rw [ha4, hY, if_pos hcY, hp, hN, if_neg hcN]
        rfl
      refine ⟨?_, ?_, ?_, ?_⟩
      · rw [hnew, hlist, reorder_any]
        unfold cycle_step5
        rw [h4, scan_any_side, decide_eq_false (not_lt.mpr hcY), Bool.false_and]
        rfl
      · rw [hnew, hlist, reorder_any]
        unfold cycle_step5
        rw [h4, scan_any_side, decide_eq_true (lt_of_not_le hcN), Bool.true_and]
        show (fillHit (snap_no_low s) (maker_limit ev s Side.NO) || false) =
          fillHit (snap_no_low s) (maker_limit ev s Side.NO)
        exact Bool.or_false _
      · intro a ha hside
        rw [hnew, hlist] at ha
        have ham := reorder_mem _ _ _ a ha
        unfold cycle_step5 at ham
        rw [h4] at ham
        obtain ⟨p, hpmem, hP1, hfls⟩ := same_cycle_fill_scan_side s
          (snap_yes_low s) (snap_no_low s) (snap_ref_yes_int s)
          (snap_ref_no_int s) n t tr _ _ a ham
        rw [List.mem_singleton.mp hpmem] at hfls
        rw [hside] at hfls
        exact Side.noConfusion hfls
      · intro a ha hside
        rw [hnew, hlist] at ha
        have ham := reorder_mem _ _ _ a ha
        unfold cycle_step5 at ham
        rw [h4] at ham
        obtain ⟨p, hpmem, hP1, hfls⟩ := same_cycle_fill_scan_side s
          (snap_yes_low s) (snap_no_low s) (snap_ref_yes_int s)
          (snap_ref_no_int s) n t tr _ _ a ham
        rw [List.mem_singleton.mp hpmem] at hP1
        exact hP1
  · by_cases hcN : ev.params.pair_cap_points ≤ maker_limit ev s Side.NO
    · have h4 : cycle_after4 ev s n t tr = { ev with pending_limits := [(Side.YES, posted_limit Side.YES (maker_limit ev s Side.YES) (pyOrZero s.yes_ask_points) (snap_ref_yes_int s) (snap_ref_no_int s) n t)] } := by
        rw [ha4, hY, if_neg hcY, hp, hN, if_pos hcN]
        rfl
      refine ⟨?_, ?_, ?_, ?_⟩
      · rw [hnew, hlist, reorder_any]
        unfold cycle_step5
        rw [h4, scan_any_side, decide_eq_true (lt_of_not_le hcY), Bool.true_and]
        show (fillHit (snap_yes_low s) (maker_limit ev s Side.YES) || false) =
          fillHit (snap_yes_low s) (maker_limit ev s Side.YES)
        exact Bool.or_false _
      · rw [hnew, hlist, reorder_any]
        unfold cycle_step5
        rw [h4, scan_any_side, decide_eq_false (not_lt.mpr hcN), Bool.false_and]
        rfl
      · intro a ha hside
        rw [hnew, hlist] at ha
        have ham := reorder_mem _ _ _ a ha
        unfold cycle_step5 at ham
        rw [h4] at ham
        obtain ⟨p, hpmem, hP1, hfls⟩ := same_cycle_fill_scan_side s
          (snap_yes_low s) (snap_no_low s) (snap_ref_yes_int s)
          (snap_ref_no_int s) n t tr _ _ a ham
        rw [List.mem_singleton.mp hpmem] at hP1
        exact hP1
      · intro a ha hside
        rw [hnew, hlist] at ha
        have ham := reorder_mem _ _ _ a ha
        unfold cycle_step5 at ham
        rw [h4] at ham
        obtain ⟨p, hpmem, hP1, hfls⟩ := same_cycle_fill_scan_side s
          (snap_yes_low s) (snap_no_low s) (snap_ref_yes_int s)
          (snap_ref_no_int s) n t tr _ _ a ham
        rw [List.mem_singleton.mp hpmem] at hfls
        rw [hside] at hfls
        exact Side.noConfusion hfls
    · have h4 : cycle_after4 ev s n t tr = { ev with pending_limits := [(Side.YES, posted_limit Side.YES (maker_limit ev s Side.YES) (pyOrZero s.yes_ask_points) (snap_ref_yes_int s) (snap_ref_no_int s) n t), (Side.NO, posted_limit Side.NO (maker_limit ev s Side.NO) (pyOrZero s.no_ask_points) (snap_ref_yes_int s) (snap_ref_no_int s) n t)] } := by
        rw [ha4, hY, if_neg hcY, hp, hN, if_neg hcN]
        rfl
      refine ⟨?_, ?_, ?_, ?_⟩
      · rw [hnew, hlist, reorder_any]
        unfold cycle_step5
        rw [h4, scan_any_side, decide_eq_true (lt_of_not_le hcY), Bool.true_and]
        show (fillHit (snap_yes_low s) (maker_limit ev s Side.YES) || false) =
          fillHit (snap_yes_low s) (maker_limit ev s Side.YES)
        exact Bool.or_false _
      · rw [hnew, hlist, reorder_any]
        unfold cycle_step5
        rw [h4, scan_any_side, decide_eq_true (lt_of_not_le hcN), Bool.true_and]
        show (fillHit (snap_no_low s) (maker_limit ev s Side.NO) || false) =
          fillHit (snap_no_low s) (maker_limit ev s Side.NO)
        exact Bool.or_false _
      · intro a ha hside
        rw [hnew, hlist] at ha
        have ham := reorder_mem _ _ _ a ha
        unfold cycle_step5 at ham
        rw [h4] at ham
        obtain ⟨p, hpmem, hP1, hfls⟩ := same_cycle_fill_scan_side s
          (snap_yes_low s) (snap_no_low s) (snap_ref_yes_int s)
          (snap_ref_no_int s) n t tr _ _ a ham
        rcases List.mem_cons.mp hpmem with heq | hpm2
        · rw [heq] at hP1
          exact hP1
        · rw [List.mem_singleton.mp hpm2] at hfls
          rw [hside] at hfls
          exact Side.noConfusion hfls
      · intro a ha hside
        rw [hnew, hlist] at ha
        have ham := reorder_mem _ _ _ a ha
        unfold cycle_step5 at ham
        rw [h4] at ham
        obtain ⟨p, hpmem, hP1, hfls⟩ := same_cycle_fill_scan_side s
          (snap_yes_low s) (snap_no_low s) (snap_ref_yes_int s)
          (snap_ref_no_int s) n t tr _ _ a ham
        rcases List.mem_cons.mp hpmem with heq | hpm2
        · rw [heq] at hfls
          rw [hside] at hfls
          exact Side.noConfusion hfls
        · rw [List.mem_singleton.mp hpm2] at hP1
          exact hP1

/-- Witness for the amended C3 on the `snapC3` cycle: neither side's
maker limit was touched, so no side fires. -/
theorem C3_maker_limit_fire_witness :
    ((runC3.2.new_attempts.any (fun a => a.first_leg_side == Side.YES)) =
      (decide (maker_limit evUnit snapC3 Side.YES <
          evUnit.params.pair_cap_points) &&
        fillHit (snap_yes_low snapC3) (maker_limit evUnit snapC3 Side.YES))) ∧
    ((runC3.2.new_attempts.any (fun a => a.first_leg_side == Side.NO)) =
      (decide (maker_limit evUnit snapC3 Side.NO <
          evUnit.params.pair_cap_points) &&
        fillHit (snap_no_low snapC3) (maker_limit evUnit snapC3 Side.NO))) ∧
    (∀ a ∈ runC3.2.new_attempts, a.first_leg_side = Side.YES →
      a.P1_points = maker_limit evUnit snapC3 Side.YES) ∧
    (∀ a ∈ runC3.2.new_attempts, a.first_leg_side = Side.NO →
      a.P1_points = maker_limit evUnit snapC3 Side.NO) :=
  C3_maker_limit_fire evUnit snapC3 1 10 800 runC3.1 runC3.2 (by rfl)
    (by decide) rfl

/-! ## Settlement and tracker bookkeeping lemmas -/

theorem settle_one_state (ev : TriggerEvaluator) (a : Attempt) (tr : ℚ)
    (fr : String) :
    (settle_one ev a tr fr).1.total_failed = ev.total_failed + 1 ∧
    (settle_one ev a tr fr).1.total_attempts = ev.total_attempts ∧
    (settle_one ev a tr fr).1.total_pairs = ev.total_pairs ∧
    (settle_one ev a tr fr).1.active_attempts = ev.active_attempts :=
  ⟨rfl, rfl, rfl, rfl⟩

theorem settle_all_state (tr : ℚ) (fr : String) :
    ∀ (l : List Attempt) (ev : TriggerEvaluator),
      (settle_all tr fr l ev).1.total_failed = ev.total_failed + l.length ∧
      (settle_all tr fr l ev).1.total_attempts = ev.total_attempts ∧
      (settle_all tr fr l ev).1.total_pairs = ev.total_pairs ∧
      (settle_all tr fr l ev).1.active_attempts = ev.active_attempts := by
  intro l
  induction l with
  | nil => intro ev; simp [settle_all]
  | cons a rest ih =>
    intro ev
    simp only [settle_all]
    have h1 := settle_one_state ev a tr fr
    have h2 := ih (settle_one ev a tr fr).1
    refine ⟨?_, ?_, ?_, ?_⟩
    · rw [h2.1, h1.1, List.length_cons]
      omega
    · rw [h2.2.1, h1.2.1]
    · rw [h2.2.2.1, h1.2.2.1]
    · rw [h2.2.2.2, h1.2.2.2]

theorem track_all_eq_state (s : Snapshot) (n t : Int) :
    ∀ (l : List Attempt) (ev ev2 : TriggerEvaluator) (l2 : List Attempt),
      track_all s n t l ev = Except.ok (ev2, l2) →
      l2.length = l.length ∧
      ev2.total_attempts = ev.total_attempts ∧
      ev2.total_pairs = ev.total_pairs ∧
      ev2.total_failed = ev.total_failed := by
  intro l
  induction l with
  | nil =>
    intro ev ev2 l2 h
    simp only [track_all, Except.ok.injEq, Prod.mk.injEq] at h
    obtain ⟨hev, hl⟩ := h
    subst hev
    subst hl
    exact ⟨rfl, rfl, rfl, rfl⟩
  | cons a rest ih =>
    intro ev ev2 l2 h
    simp only [track_all] at h
    cases h1 : track_one ev a s n t with
    | error e =>
      rw [h1] at h
      exact Except.noConfusion h
    | ok out =>
      obtain ⟨ev1, a1⟩ := out
      rw [h1] at h
      dsimp only at h
      cases h2 : track_all s n t rest ev1 with
      | error e =>
        rw [h2] at h
        exact Except.noConfusion h
      | ok out2 =>
        obtain ⟨evr, lr⟩ := out2
        rw [h2] at h
        dsimp only at h
        simp only [Except.ok.injEq, Prod.mk.injEq] at h
        obtain ⟨hev, hl⟩ := h
        subst hev
        subst hl
        have hone := track_one_ok_state ev a s n t ev1 a1 h1
        have hrest := ih ev1 evr lr h2
        refine ⟨?_, ?_, ?_, ?_⟩
        · simp only [List.length_cons, hrest.1]
        · rw [hrest.2.1, hone.1]
        · rw [hrest.2.2.1, hone.2.1]
        · rw [hrest.2.2.2, hone.2.2.1]

/-! ## Claim C10 — counter bookkeeping invariant -/

/-- C10: the bookkeeping identity
`total_attempts = total_pairs + total_failed + len(active_attempts)`
holds for a freshly constructed evaluator and is preserved by every
normally returning `evaluate_cycle`, by `process_settlement` and by
`mark_feed_gap`. -/
theorem C10_counter_invariant (p : ParameterSet) (mi : MarketInfo)
    (dev : Int) (el : Bool) (ev ev' evb evc : TriggerEvaluator)
    (s : Snapshot) (n t st : Int) (tr trp : ℚ) (fr : String) (r : CycleResult)
    (hc : counters_consistent ev)
    (hok : evaluate_cycle ev s n t tr = Except.ok (ev', r))
    (hcb : counters_consistent evb) (hcc : counters_consistent evc) :
    counters_consistent (mkTriggerEvaluator p mi dev el) ∧
    counters_consistent ev' ∧
    counters_consistent (process_settlement evb st trp fr).1 ∧
    counters_consistent (mark_feed_gap evc) := by
  refine ⟨rfl, ?_, ?_, ?_⟩
  · by_cases hv : has_valid_orderbook s = true
    · obtain ⟨-, -, -, ev7, tracked, htr, hta, htp, htf, hact, -, -, -⟩ :=
        evaluate_cycle_ok_parts ev s n t tr ev' r hok hv
      have hts := track_all_eq_state s n t (cycle_body ev s n t tr).1.active_attempts
        (cycle_body ev s n t tr).1 ev7 tracked htr
      have hbs := cycle_body_state ev s n t tr
      unfold counters_consistent at hc ⊢
      have e1 : ev'.total_attempts =
          ev.total_attempts + (cycle_body ev s n t tr).2.1.length := by
        rw [hta, hts.2.1, hbs.2.2.2.1]
      have e2 : ev'.total_pairs =
          ev.total_pairs + (cycle_body ev s n t tr).2.2.length := by
        rw [htp, hts.2.2.1, hbs.2.2.2.2.1]
      have e3 : ev'.total_failed = ev.total_failed := by
        rw [htf, hts.2.2.2, hbs.2.2.1]
      have e4 : ev'.active_attempts.length =
          (cycle_body ev s n t tr).1.active_attempts.length := by
        rw [hact, hts.1]
      have e5 := hbs.2.2.2.2.2
      omega
    · have hfv : has_valid_orderbook s = false := by
        revert hv; cases has_valid_orderbook s <;> simp
      rw [evaluate_cycle_of_invalid ev s n t tr hfv] at hok
      simp only [Except.ok.injEq, Prod.mk.injEq] at hok
      obtain ⟨hev, -⟩ := hok
      rw [← hev]
      exact hc
  · have hs := settle_all_state trp fr evb.active_attempts
      { evb with pending_limits := [] }
    have e1 : (process_settlement evb st trp fr).1.total_attempts =
        evb.total_attempts := hs.2.1
    have e2 : (process_settlement evb st trp fr).1.total_pairs =
        evb.total_pairs := hs.2.2.1
    have e3 : (process_settlement evb st trp fr).1.total_failed =
        evb.total_failed + evb.active_attempts.length := hs.1
    have e4 : (process_settlement evb st trp fr).1.active_attempts = [] := rfl
    unfold counters_consistent at hcb ⊢
    rw [e1, e2, e3, e4]
    simp only [List.length_nil]
    omega
  · have e5 : (mark_feed_gap evc).active_attempts.length =
        evc.active_attempts.length := by
      unfold mark_feed_gap
      dsimp only
      rw [List.length_map]
    have e6 : (mark_feed_gap evc).total_attempts = evc.total_attempts := rfl
    have e7 : (mark_feed_gap evc).total_pairs = evc.total_pairs := rfl
    have e8 : (mark_feed_gap evc).total_failed = evc.total_failed := rfl
    unfold counters_consistent at hcc ⊢
    rw [e5, e6, e7, e8]
    exact hcc

/-- Witness for C10 at the scenario-1 cycle: the identity holds for the
fresh evaluator, after the fill cycle, after a settlement sweep, and
after a feed-gap mark. -/
theorem C10_counter_invariant_witness :
    counters_consistent (mkTriggerEvaluator psUnit miUnit 2 false) ∧
    counters_consistent run1.1 ∧
    counters_consistent (process_settlement evUnit 900 100 "settlement").1 ∧
    counters_consistent (mark_feed_gap evUnit) :=
  C10_counter_invariant psUnit miUnit 2 false evUnit run1.1 evUnit evUnit
    snap1 1 10 900 800 100 "settlement" run1.2 rfl (by rfl) rfl rfl

end PairBot
